import Mathlib

/-!
# Verification of the football-alerts service

A shallow embedding, in Lean 4, of the parts of the football-alerts
repository relevant to its specification: the Odds-API parser
(`app/services/the_odds_api_service.py`), the `Match` model's derived
properties (`app/models/match.py`), the monitoring/orchestration service
(`app/services/monitor_service.py`), and the items demo CRUD routes
(`app/api/routes/items.py`, `app/schemas/item.py`).

Modelling conventions:
* Python `float` prices/odds are embedded as `ℚ` (the code only compares
  and stores them; no float-specific behaviour is relied on).
* Python `datetime` values are embedded as a `DT` record of calendar
  fields; comparisons between datetimes go through `DT.toSec`, the number
  of seconds since the civil epoch, which on valid datetimes coincides
  with Python's field-lexicographic datetime order.
* Fallible lookups (`dict.get`, `next(..., None)`, ORM `.first()`)
  become `Option`-returning functions; Python truthiness of odds/ids is
  modelled explicitly where the code relies on it (`if curr_home and ...`).
* HTTP/network calls are modelled as fields of an `Env` record supplying
  their (already JSON-decoded) results; `hash(...)` — Python's
  process-salted string hash — is an arbitrary function `pyHash` in `Env`,
  fixed for the duration of a process, which is exactly what the code
  relies on.
-/

set_option maxHeartbeats 1000000

namespace FootballAlerts

/-! ## Calendar datetimes

`DT` embeds a (naive) Python `datetime` at second granularity.
`daysFromCivil` is the standard civil-calendar day-number computation, so
that `DT.toSec` is the timestamp of the datetime; Python's comparison of
`datetime` values (field-lexicographic, always on valid field ranges)
coincides with comparison of timestamps. -/

structure DT where
  year : ℤ
  month : ℕ
  day : ℕ
  hour : ℕ
  minute : ℕ
  second : ℕ
  deriving Repr, DecidableEq

def daysFromCivil (y : ℤ) (m : ℕ) (d : ℕ) : ℤ :=
  let y' : ℤ := y - (if m ≤ 2 then 1 else 0)
  let era : ℤ := Int.fdiv y' 400
  let yoe : ℤ := y' - era * 400
  let mp : ℤ := (((m : ℤ) + 9) % 12)
  let doy : ℤ := (153 * mp + 2) / 5 + (d : ℤ) - 1
  let doe : ℤ := yoe * 365 + yoe / 4 - yoe / 100 + doy
  era * 146097 + doe - 719468

def DT.toSec (t : DT) : ℤ :=
  86400 * daysFromCivil t.year t.month t.day
    + 3600 * (t.hour : ℤ) + 60 * (t.minute : ℤ) + (t.second : ℤ)

/-- Python `a < b` on datetimes. -/
def dtLt (a b : DT) : Bool := a.toSec < b.toSec

/-- Python `a <= b` on datetimes. -/
def dtLe (a b : DT) : Bool := a.toSec ≤ b.toSec

/-! ## Configuration (`app/core/config.py`)

Only the options the modelled code paths read. -/

structure Settings where
  FAVORITE_ODDS_THRESHOLD : ℚ
  MONITOR_MINUTE_START : ℕ
  MONITOR_MINUTE_END : ℕ
  leagues_to_monitor_list : List ℕ
  deriving Repr

def defaultSettings : Settings :=
  { FAVORITE_ODDS_THRESHOLD := mkRat 27 20   -- 1.35
    MONITOR_MINUTE_START := 55
    MONITOR_MINUTE_END := 62
    leagues_to_monitor_list := [39, 140, 135, 78, 61, 239] }

/-! ## The Odds API data (`app/services/the_odds_api_service.py`)

Raw odds payloads: a match carries `home_team`, `away_team`, the tag
`league_key` added by `get_odds_for_soccer`, a `commence_time` (embedded
already parsed, see `DT`), and a list of bookmakers, each offering
markets made of named outcomes with a decimal price. -/

structure Outcome where
  name : String
  price : ℚ
  deriving Repr, DecidableEq

structure Market where
  key : String
  outcomes : List Outcome
  deriving Repr, DecidableEq

structure Bookmaker where
  title : String
  markets : List Market
  deriving Repr, DecidableEq

structure OddsData where
  home_team : String
  away_team : String
  league_key : String
  commence_time : DT
  bookmakers : List Bookmaker
  deriving Repr, DecidableEq

/-- Result of `TheOddsAPIService.parse_odds`. -/
structure ParsedOdds where
  home_odds : ℚ
  away_odds : ℚ
  draw_odds : Option ℚ
  favorite_team : String
  favorite_odds : ℚ
  bookmaker : Option String
  deriving Repr, DecidableEq

/-- `next((m for m in markets if m["key"] == "h2h"), None)` -/
def findH2h (ms : List Market) : Option Market :=
  ms.find? (fun m => m.key == "h2h")

/-- `next((o["price"] for o in outcomes if o["name"] == nm), None)` -/
def findPrice (outs : List Outcome) (nm : String) : Option ℚ :=
  (outs.find? (fun o => o.name == nm)).map (·.price)

/-- One running-minimum update of the `parse_odds` loop:
`if curr and curr < best: best = curr`.  `none` plays `float('inf')`;
Python truthiness skips a price of `0`. -/
def updMin (curr : Option ℚ) (best : Option ℚ) : Option ℚ :=
  match curr with
  | none => best
  | some p =>
    if p = 0 then best
    else
      match best with
      | none => some p
      | some q => if p < q then some p else best

/-- Accumulator of the `parse_odds` bookmaker loop:
running minima for home/away/draw plus the `best_bookmaker` title. -/
structure OddsAcc where
  home : Option ℚ
  away : Option ℚ
  draw : Option ℚ
  best : Option String
  deriving Repr, DecidableEq

/-- One iteration of the `parse_odds` loop over a bookmaker. -/
def oddsStep (od : OddsData) (acc : OddsAcc) (bk : Bookmaker) : OddsAcc :=
  match findH2h bk.markets with
  | none => acc
  | some m =>
    let currHome := findPrice m.outcomes od.home_team
    let currAway := findPrice m.outcomes od.away_team
    let currDraw := findPrice m.outcomes "Draw"
    { home := updMin currHome acc.home
      away := updMin currAway acc.away
      draw := updMin currDraw acc.draw
      best :=
        -- `best_bookmaker = bookmaker.get("title")` fires exactly when
        -- the home minimum improves
        if updMin currHome acc.home ≠ acc.home then some bk.title else acc.best }

/-- The tail of `parse_odds` after the bookmaker loop: fail unless both
a home and an away price were found, then pick the favorite (the side
with the lower price; ties go to away, the `else` branch). -/
def finishParse (acc : OddsAcc) : Option ParsedOdds :=
  match acc.home, acc.away with
  | some h, some a =>
    if h < a then
      some ⟨h, a, acc.draw, "home", h, acc.best⟩
    else
      some ⟨h, a, acc.draw, "away", a, acc.best⟩
  | _, _ => none

/-- `TheOddsAPIService.parse_odds`: best (lowest) odds across all
bookmakers; `None` when no bookmaker yields both a home and an away
price. -/
def parse_odds (od : OddsData) : Option ParsedOdds :=
  if od.bookmakers.isEmpty then none
  else finishParse (od.bookmakers.foldl (oddsStep od) ⟨none, none, none, none⟩)

/-- The price one bookmaker offers for outcome `nm` on its h2h market
(`none` when it has no h2h market or no such outcome). -/
def bkPrice (nm : String) (bk : Bookmaker) : Option ℚ :=
  (findH2h bk.markets).bind (fun m => findPrice m.outcomes nm)

/-- Specification view for C1: the prices a given outcome name is offered
at, across the bookmakers that offer an `"h2h"` market. -/
def h2hPrices (od : OddsData) (nm : String) : List ℚ :=
  od.bookmakers.filterMap (bkPrice nm)

/-- The minimum of a list of rationals (`none` on the empty list). -/
def listMin : List ℚ → Option ℚ
  | [] => none
  | x :: xs => some (xs.foldl min x)

/-! ## Live-score data (`get_all_live_scores` / `parse_live_score`) -/

/-- One entry of a score payload's `scores` array; the score value comes
over the wire as a string (`int(...)` is applied by the parser). -/
structure ScoreEntry where
  name : String
  score : Option String
  deriving Repr, DecidableEq

/-- A raw score record as returned by the scores endpoint, tagged with
its `league_key` by `get_all_live_scores`.  `commence_time` is embedded
already parsed (`None` for a missing/empty field). -/
structure ScoreData where
  home_team : String
  away_team : String
  completed : Bool
  scores : List ScoreEntry
  commence_time : Option DT
  league_key : String
  deriving Repr, DecidableEq

structure ParsedScore where
  home_team : String
  away_team : String
  home_score : ℤ
  away_score : ℤ
  completed : Bool
  commence_time : Option DT
  league_key : String
  deriving Repr, DecidableEq

/-- `int(s) if s else 0` for an optional string score; a non-numeric
string raises in Python, which the surrounding `try` turns into `None`
for the whole record — hence the `Option` result. -/
def scoreToInt : Option String → Option ℤ
  | none => some 0
  | some s => if s = "" then some 0 else s.toInt?

/-- `TheOddsAPIService.parse_live_score`. -/
def parse_live_score (sd : ScoreData) : Option ParsedScore :=
  if !sd.completed ∧ sd.scores ≠ [] then
    let homeRaw := (sd.scores.find? (fun e => e.name == sd.home_team)).bind (·.score)
    let awayRaw := (sd.scores.find? (fun e => e.name == sd.away_team)).bind (·.score)
    match scoreToInt homeRaw, scoreToInt awayRaw with
    | some hs, some as' =>
      some ⟨sd.home_team, sd.away_team, hs, as', sd.completed, sd.commence_time, sd.league_key⟩
    | _, _ => none
  else none

/-! ## Persistence layer (`app/models/*.py`)

Rows keep the column names of the SQLAlchemy models; `created_at` /
`updated_at` bookkeeping timestamps are not modelled (no claim concerns
them). -/

structure LeagueRow where
  id : ℕ
  api_id : ℕ
  name : String
  country : String
  season : ℤ
  deriving Repr, DecidableEq

structure TeamRow where
  id : ℕ
  api_id : ℕ
  name : String
  deriving Repr, DecidableEq

structure MatchRow where
  id : ℕ
  api_id : ℕ
  league_id : ℕ
  home_team_id : ℕ
  away_team_id : ℕ
  match_date : DT
  status : String
  current_minute : Option ℕ
  home_score : Option ℤ
  away_score : Option ℤ
  home_odds : Option ℚ
  draw_odds : Option ℚ
  away_odds : Option ℚ
  favorite_team_id : Option ℕ
  favorite_odds : Option ℚ
  should_monitor : Bool
  is_monitored : Bool
  notification_sent : Bool
  notified_at : Option DT
  deriving Repr, DecidableEq

structure NotificationRow where
  id : ℕ
  match_id : ℕ
  message : String
  status : String
  deriving Repr, DecidableEq

/-- The relational store: four tables plus fresh-id counters (SQLAlchemy
assigns autoincrement primary keys at flush time). -/
structure DB where
  leagues : List LeagueRow
  teams : List TeamRow
  matches' : List MatchRow
  notifications : List NotificationRow
  nextLeagueId : ℕ
  nextTeamId : ℕ
  nextMatchId : ℕ
  nextNotificationId : ℕ
  deriving Repr, DecidableEq

/-- Python truthiness of a nullable integer id (`if not x` is taken both
when `x` is `None` and when it is `0`). -/
def truthyId : Option ℕ → Bool
  | none => false
  | some n => n != 0

/-! ## `Match` derived properties (`app/models/match.py`) -/

/-- `Match.is_favorite_losing`. -/
def is_favorite_losing (m : MatchRow) : Bool :=
  if !truthyId m.favorite_team_id || m.home_score == none || m.away_score == none then
    false
  else if m.favorite_team_id == some m.home_team_id then
    m.home_score.getD 0 < m.away_score.getD 0
  else
    m.away_score.getD 0 < m.home_score.getD 0

/-- `Match.is_in_monitoring_window` (reads the minute bounds from
settings; `if not self.current_minute` is Python truthiness, so minute
`0` short-circuits to `False`). -/
def is_in_monitoring_window (s : Settings) (m : MatchRow) : Bool :=
  match m.current_minute with
  | none => false
  | some x =>
    if x = 0 then false
    else decide (s.MONITOR_MINUTE_START ≤ x) && decide (x ≤ s.MONITOR_MINUTE_END)

/-! ## API-Football fixtures (`app/services/api_football.py`)

`get_fixture_by_id` / `get_fixtures_by_date` composed with
`parse_fixture` are modelled as environment functions returning the
parsed shape directly (the HTTP fetch and the dictionary reshaping done
by `parse_fixture` are the opaque I/O boundary). -/

structure PFTeam where
  api_id : ℕ
  name : String
  deriving Repr, DecidableEq

structure PFLeague where
  api_id : ℕ
  name : String
  country : String
  deriving Repr, DecidableEq

structure ParsedFixture where
  api_id : ℕ
  match_date : DT
  status : String
  current_minute : Option ℕ
  home_team : PFTeam
  away_team : PFTeam
  home_score : Option ℤ
  away_score : Option ℤ
  league : PFLeague
  deriving Repr, DecidableEq

/-! ## Process environment

All I/O of one service invocation: clock, the decoded responses of the
external APIs, the notifier outcome, and Python's (process-salted but
process-stable) string hash. -/

structure Env where
  settings : Settings
  pyHash : String → ℕ
  year : ℤ
  now : DT
  allOdds : List OddsData
  fixturesToday : List ParsedFixture
  fixturesTomorrow : List ParsedFixture
  liveScores : List ScoreData
  apiFootballById : ℕ → Option ParsedFixture
  sendMessage : String → Bool

/-! ## Table lookups (ORM `.query(...).filter(...).first()`) -/

def teamByName (db : DB) (n : String) : Option TeamRow :=
  db.teams.find? (fun t => t.name == n)

def leagueByName (db : DB) (n : String) : Option LeagueRow :=
  db.leagues.find? (fun l => l.name == n)

def teamById (db : DB) (i : ℕ) : Option TeamRow :=
  db.teams.find? (fun t => t.id == i)

def leagueById (db : DB) (i : ℕ) : Option LeagueRow :=
  db.leagues.find? (fun l => l.id == i)

/-- Substring test (Python `needle in hay`; SQL `LIKE '%needle%'` after
both sides are lowercased by the caller). -/
def strContains (hay needle : String) : Bool :=
  (List.range (hay.toList.length + 1)).any
    (fun i => needle.toList.isPrefixOf (hay.toList.drop i))

/-- Python `str.lower()` (ASCII case folding suffices for the model). -/
def strToLower (s : String) : String := ⟨s.data.map Char.toLower⟩

/-- Python `str.strip()`: drop leading and trailing whitespace. -/
def strTrim (s : String) : String :=
  ⟨((s.data.dropWhile Char.isWhitespace).reverse.dropWhile Char.isWhitespace).reverse⟩

/-- Fuel-indexed worker for `strReplace` (the fuel — the full length of
the string — makes the recursion structural). -/
def replaceFuel : ℕ → List Char → List Char → List Char → List Char
  | 0, l, _, _ => l
  | Nat.succ n, l, pat, rep =>
    match l with
    | [] => []
    | c :: rest =>
      if pat ≠ [] && pat.isPrefixOf l then rep ++ replaceFuel n (l.drop pat.length) pat rep
      else c :: replaceFuel n rest pat rep

/-- Python `str.replace(old, new)`: replace every non-overlapping
occurrence, left to right. -/
def strReplace (s pat rep : String) : String :=
  ⟨replaceFuel s.data.length s.data pat.data rep.data⟩

/-- Replace a row (the ORM mutates the mapped object in place; rows are
identified by primary key). -/
def writeRow (db : DB) (m : MatchRow) : DB :=
  { db with matches' := db.matches'.map (fun r => if r.id == m.id then m else r) }

/-! ## `MonitorService` helpers: get-or-create and alert dispatch -/

/-- Get-or-create a League by name for the odds-feed path
(`_store_fixture_from_odds`): a new league gets pseudo id
`hash(league_key) % 1000000`; a unique-constraint collision on `api_id`
at flush raises `IntegrityError`, which the surrounding `try` of
`_store_fixture_from_odds` converts into a failed item (`none`). -/
def getOrCreateLeague (env : Env) (key : String) (db : DB) : DB × Option LeagueRow :=
  match leagueByName db key with
  | some l => (db, some l)
  | none =>
    let apiId := env.pyHash key % 1000000
    if db.leagues.any (fun l => l.api_id == apiId) then (db, none)
    else
      let l : LeagueRow :=
        { id := db.nextLeagueId, api_id := apiId, name := key, country := "Unknown", season := env.year }
      ({ db with leagues := db.leagues ++ [l], nextLeagueId := db.nextLeagueId + 1 }, some l)

/-- Get-or-create a Team by name (odds-feed path), pseudo id
`hash(name) % 1000000`; same flush-failure convention as leagues. -/
def getOrCreateTeam (env : Env) (n : String) (db : DB) : DB × Option TeamRow :=
  match teamByName db n with
  | some t => (db, some t)
  | none =>
    let apiId := env.pyHash n % 1000000
    if db.teams.any (fun t => t.api_id == apiId) then (db, none)
    else
      let t : TeamRow := { id := db.nextTeamId, api_id := apiId, name := n }
      ({ db with teams := db.teams ++ [t], nextTeamId := db.nextTeamId + 1 }, some t)

def pad2 (n : ℕ) : String :=
  if n < 10 then "0" ++ toString n else toString n

/-- `match_date.strftime("%H:%M")` -/
def fmtTime (d : DT) : String := pad2 d.hour ++ ":" ++ pad2 d.minute

/-- ISO rendering of a datetime, used only as input to `pyHash`
(the code hashes the provider's `commence_time` string). -/
def dtIso (d : DT) : String :=
  toString d.year ++ "-" ++ pad2 d.month ++ "-" ++ pad2 d.day ++ "T"
    ++ pad2 d.hour ++ ":" ++ pad2 d.minute ++ ":" ++ pad2 d.second ++ "Z"

/-- Decimal rendering of an odds value inside message text (Python's
`{:.2f}` / `str(float)`; the exact digits are irrelevant to every claim,
the rational's canonical string stands in for them). -/
def qStr (q : ℚ) : String := toString q

/-- Message body of the live alert (`_send_alert`); note the literal
"minutos 52-65" display text. -/
def liveAlertMessage (h a lg fav : String) (odds : ℚ) (minute : ℕ) (hs as' : ℤ) : String :=
  "🚨 ALERTA: Favorito Perdiendo (minutos 52-65)\n\n⚽ " ++ h ++ " vs " ++ a ++
    "\n🏆 " ++ lg ++ "\n\n🎯 Favorito: " ++ fav ++ "\n💰 Cuota pre-partido: " ++ qStr odds ++
    "\n⏱️ Minuto: " ++ toString minute ++ "'\n⚽ Resultado: " ++ toString hs ++ " - " ++ toString as' ++
    "\n\n📊 El favorito está perdiendo en momento crítico!"

/-- Message body of the pre-match low-odds alert (`_send_low_odds_alert`). -/
def lowOddsMessage (h a lg fav : String) (odds : ℚ) (kick : String) : String :=
  "🚨 ALERTA: Cuota Pre-Partido Baja\n\n⚽ " ++ h ++ " vs " ++ a ++
    "\n🏆 " ++ lg ++ "\n\n🎯 Favorito: " ++ fav ++ "\n💰 Cuota: " ++ qStr odds ++
    "\n⏰ Inicio: " ++ kick ++ "\n"

/-- `MonitorService._send_alert`: live alert for a match.  Resolves
home/away/league/favorite rows (failure → `False`, nothing written);
formatting `match.favorite_odds` with `:.2f` raises on `None` (caught →
`False`, nothing written); otherwise sends and **always** records a
Notification row, `"sent"` on success and `"failed"` on failure. -/
def sendAlert (env : Env) (db : DB) (m : MatchRow) : DB × Bool :=
  match teamById db m.home_team_id, teamById db m.away_team_id,
        leagueById db m.league_id, m.favorite_team_id.bind (teamById db) with
  | some home, some away, some league, some fav =>
    match m.favorite_odds with
    | none => (db, false)
    | some fq =>
      let msg := liveAlertMessage home.name away.name league.name fav.name fq
        (m.current_minute.getD 0) (m.home_score.getD 0) (m.away_score.getD 0)
      let ok := env.sendMessage msg
      ({ db with
          notifications := db.notifications ++
            [{ id := db.nextNotificationId, match_id := m.id,
               message := "Alert sent for " ++ home.name ++ " vs " ++ away.name,
               status := if ok then "sent" else "failed" }],
          nextNotificationId := db.nextNotificationId + 1 },
       ok)
  | _, _, _, _ => (db, false)

/-- `MonitorService._send_low_odds_alert`: pre-match low-odds alert.
Resolves league/favorite (failure → `False`); formatting a `None`
`favorite_odds` raises (caught → `False`); otherwise sends, and **only on
success** marks the match `notification_sent` and records a Notification
row with status `"sent"`; on failure nothing is written. -/
def sendLowOddsAlert (env : Env) (db : DB) (m : MatchRow) (home away : TeamRow) : DB × Bool :=
  match leagueById db m.league_id, m.favorite_team_id.bind (teamById db) with
  | some league, some fav =>
    match m.favorite_odds with
    | none => (db, false)
    | some fq =>
      let msg := lowOddsMessage home.name away.name league.name fav.name fq (fmtTime m.match_date)
      let ok := env.sendMessage msg
      if ok then
        ({ db with
            matches' := db.matches'.map
              (fun r => if r.id == m.id then { r with notification_sent := true } else r),
            notifications := db.notifications ++
              [{ id := db.nextNotificationId, match_id := m.id,
                 message := "Low odds alert: " ++ home.name ++ " vs " ++ away.name
                   ++ " (" ++ qStr fq ++ ")",
                 status := "sent" }],
            nextNotificationId := db.nextNotificationId + 1 },
         true)
      else (db, false)
  | _, _ => (db, false)

/-! ## `MonitorService._store_fixture_from_odds` and `fetch_and_store_fixtures` -/

/-- The lookup of a real API-Football id in the pre-fetched index:
exact key `f"{home.lower()}_{away.lower()}"` first, then the fuzzy scan
for a key containing both lowered team names. -/
def lookupRealApiId (afd : List (String × ℕ)) (hname aname : String) : Option ℕ :=
  let key := strToLower hname ++ "_" ++ strToLower aname
  match afd.find? (fun kv => kv.1 == key) with
  | some kv => some kv.2
  | none =>
    (afd.find? (fun kv => strContains kv.1 (strToLower hname) && strContains kv.1 (strToLower aname))).map
      (·.2)

/-- `api_id = real_api_id if real_api_id else hash(f"{home}{away}{commence}") % 1000000`
(Python truthiness: a looked-up id of `0` also falls back to the hash). -/
def chooseApiId (env : Env) (realApiId : Option ℕ) (hname aname : String) (ct : DT) : ℕ :=
  match realApiId with
  | some rid => if rid != 0 then rid else env.pyHash (hname ++ aname ++ dtIso ct) % 1000000
  | none => env.pyHash (hname ++ aname ++ dtIso ct) % 1000000

/-- The Match row built by the creation branch of
`_store_fixture_from_odds`: status `"NS"`, the parsed odds columns,
`should_monitor` by the strict threshold comparison when odds parsed and
`True` (debug mode) when they did not, favorite defaulting to home
without odds. -/
def storeOddsNewRow (env : Env) (afd : List (String × ℕ)) (om : OddsData)
    (league : LeagueRow) (home_team away_team : TeamRow) (db3 : DB) : MatchRow :=
  let parsed := parse_odds om
  { id := db3.nextMatchId
    api_id := chooseApiId env (lookupRealApiId afd (strTrim om.home_team) (strTrim om.away_team))
      (strTrim om.home_team) (strTrim om.away_team) om.commence_time
    league_id := league.id
    home_team_id := home_team.id
    away_team_id := away_team.id
    match_date := om.commence_time
    status := "NS"
    current_minute := none
    home_score := none
    away_score := none
    home_odds := parsed.map (·.home_odds)
    draw_odds := parsed.bind (·.draw_odds)
    away_odds := parsed.map (·.away_odds)
    favorite_team_id := some (match parsed with
      | some po => if po.favorite_team == "home" then home_team.id else away_team.id
      | none => home_team.id)
    favorite_odds := parsed.map (·.favorite_odds)
    should_monitor := match parsed with
      | some po => decide (po.favorite_odds < env.settings.FAVORITE_ODDS_THRESHOLD)
      | none => true
    is_monitored := false
    notification_sent := false
    notified_at := none }

/-- Creation branch of `_store_fixture_from_odds`: insert the new row
(unless its `api_id` violates the unique constraint at flush, which
fails the item), then — only when pre-match alerting is enabled and the
favorite's odds are below threshold — send the low-odds alert. -/
def storeOddsCreate (env : Env) (afd : List (String × ℕ)) (sendPreAlert : Bool) (om : OddsData)
    (league : LeagueRow) (home_team away_team : TeamRow) (db3 : DB) : DB × Bool :=
  let newRow := storeOddsNewRow env afd om league home_team away_team db3
  if db3.matches'.any (fun r => r.api_id == newRow.api_id) then (db3, false)
  else
    let db4 := { db3 with matches' := db3.matches' ++ [newRow],
                          nextMatchId := db3.nextMatchId + 1 }
    if sendPreAlert && (parse_odds om).isSome && newRow.should_monitor
        && !newRow.notification_sent then
      ((sendLowOddsAlert env db4 newRow home_team away_team).1, true)
    else (db4, true)

/-- The per-row refresh of the update branch: overwrite the four odds
columns of the targeted row, leave every other row alone. -/
def refreshOdds (po : ParsedOdds) (mid : ℕ) (r : MatchRow) : MatchRow :=
  if r.id == mid then
    { r with home_odds := some po.home_odds, draw_odds := po.draw_odds,
             away_odds := some po.away_odds, favorite_odds := some po.favorite_odds }
  else r

/-- Update branch of `_store_fixture_from_odds`: refresh the odds
columns of the existing row (only when odds parsed). -/
def storeOddsUpdate (om : OddsData) (m0 : MatchRow) (db3 : DB) : DB × Bool :=
  match parse_odds om with
  | some po =>
    ({ db3 with matches' := db3.matches'.map (refreshOdds po m0.id) }, true)
  | none => (db3, true)

/-- `MonitorService._store_fixture_from_odds`.

Get-or-create league (by `league_key` as name) and both teams (by
name); look for an existing Match with the same home/away team pair
whose `match_date` lies in
`[commence.replace(hour=0, minute=0), commence.replace(hour=23, minute=59))`
(note: `replace` keeps the seconds field); if none, run the creation
branch, else the update branch.

A violated `api_id` unique constraint at flush raises `IntegrityError`,
caught by the function's `try` (result `false`, row not inserted; in a
real session subsequent statements of the same transaction would also
fail, which only makes fewer rows persist). -/
def windowPred (om : OddsData) (hid aid : ℕ) (r : MatchRow) : Bool :=
  r.home_team_id == hid && r.away_team_id == aid &&
    dtLe { om.commence_time with hour := 0, minute := 0 } r.match_date &&
    dtLt r.match_date { om.commence_time with hour := 23, minute := 59 }

def storeFixtureFromOdds (env : Env) (afd : List (String × ℕ)) (sendPreAlert : Bool)
    (om : OddsData) (db : DB) : DB × Bool :=
  let hname := (strTrim om.home_team)
  let aname := (strTrim om.away_team)
  match getOrCreateLeague env om.league_key db with
  | (db1, none) => (db1, false)
  | (db1, some league) =>
    match getOrCreateTeam env hname db1 with
    | (db2, none) => (db2, false)
    | (db2, some home_team) =>
      match getOrCreateTeam env aname db2 with
      | (db3, none) => (db3, false)
      | (db3, some away_team) =>
        match db3.matches'.find? (windowPred om home_team.id away_team.id) with
        | none => storeOddsCreate env afd sendPreAlert om league home_team away_team db3
        | some m0 => storeOddsUpdate om m0 db3

/-- Python-dict insertion for the pre-fetched API-Football index
(insertion order kept, later values overwrite the same key). -/
def dictInsert (d : List (String × ℕ)) (k : String) (v : ℕ) : List (String × ℕ) :=
  if d.any (fun kv => kv.1 == k) then
    d.map (fun kv => if kv.1 == k then (k, v) else kv)
  else d ++ [(k, v)]

/-- The index of API-Football fixtures built in `fetch_and_store_fixtures`
(today's and tomorrow's fixtures, keyed by lowered team names). -/
def buildAfDict (ps : List ParsedFixture) : List (String × ℕ) :=
  ps.foldl (fun d p =>
    dictInsert d (strToLower p.home_team.name ++ "_" ++ strToLower p.away_team.name) p.api_id) []

/-- `datetime.now().replace(hour=0, minute=0, second=0, microsecond=0)`:
the start of the current calendar day. -/
def todayStart (env : Env) : DT := { env.now with hour := 0, minute := 0, second := 0 }

/-- `MonitorService._cleanup_old_matches`: delete every Match dated
before the start of the current calendar day; return the count. -/
def cleanupOldMatches (env : Env) (db : DB) : DB × ℕ :=
  ({ db with matches' := db.matches'.filter (fun m => !dtLt m.match_date (todayStart env)) },
   (db.matches'.filter (fun m => dtLt m.match_date (todayStart env))).length)

/-- `MonitorService._store_fixture_from_api_football` (TEMPORARY-MODE
path): get-or-create league and teams by provider id, then — unless a
Match with this provider id exists — insert **two** rows monitoring both
teams, the second with the provider id offset by 1,000,000.  A unique
collision of the offset id at flush fails the item (see
`storeFixtureFromOdds` on `IntegrityError`). -/
def getOrCreateLeagueByApiId (env : Env) (lg : PFLeague) (db : DB) : DB × LeagueRow :=
  match db.leagues.find? (fun l => l.api_id == lg.api_id) with
  | some l => (db, l)
  | none =>
    let l : LeagueRow := { id := db.nextLeagueId, api_id := lg.api_id,
                           name := lg.name, country := lg.country, season := env.year }
    ({ db with leagues := db.leagues ++ [l], nextLeagueId := db.nextLeagueId + 1 }, l)

def getOrCreateTeamByApiId (tm : PFTeam) (db : DB) : DB × TeamRow :=
  match db.teams.find? (fun t => t.api_id == tm.api_id) with
  | some t => (db, t)
  | none =>
    let t : TeamRow := { id := db.nextTeamId, api_id := tm.api_id, name := tm.name }
    ({ db with teams := db.teams ++ [t], nextTeamId := db.nextTeamId + 1 }, t)

/-- The HOME-favorite row inserted by the TEMPORARY-MODE path; the
AWAY-favorite companion is the same row with a bumped primary key, the
offset provider id and the away team as favorite. -/
def tempHomeRow (p : ParsedFixture) (league : LeagueRow) (home_team away_team : TeamRow)
    (db3 : DB) : MatchRow :=
  { id := db3.nextMatchId, api_id := p.api_id, league_id := league.id,
    home_team_id := home_team.id, away_team_id := away_team.id,
    match_date := p.match_date, status := p.status, current_minute := none,
    home_score := none, away_score := none,
    home_odds := none, draw_odds := none, away_odds := none,
    favorite_team_id := some home_team.id, favorite_odds := none,
    should_monitor := true, is_monitored := false,
    notification_sent := false, notified_at := none }

def storeFixtureFromApiFootball (env : Env) (p : ParsedFixture) (db : DB) : DB × Bool :=
  let s1 := getOrCreateLeagueByApiId env p.league db
  let s2 := getOrCreateTeamByApiId p.home_team s1.1
  let s3 := getOrCreateTeamByApiId p.away_team s2.1
  let db3 := s3.1
  if db3.matches'.any (fun r => r.api_id == p.api_id) then (db3, false)
  else if db3.matches'.any (fun r => r.api_id == p.api_id + 1000000) then (db3, false)
  else
    let rowHome := tempHomeRow p s1.2 s2.2 s3.2 db3
    let rowAway := { rowHome with id := db3.nextMatchId + 1, api_id := p.api_id + 1000000,
                                  favorite_team_id := some s3.2.id }
    ({ db3 with matches' := db3.matches' ++ [rowHome, rowAway],
                nextMatchId := db3.nextMatchId + 2 },
     true)

/-- The rolling 20-hour look-ahead filter of `fetch_and_store_fixtures`
(`now_utc <= commence <= now_utc + timedelta(hours=20)`). -/
def inWindow20h (env : Env) (ct : DT) : Bool :=
  dtLe env.now ct && decide (ct.toSec ≤ env.now.toSec + 72000)

/-- Everything `fetch_and_store_fixtures` does after its initial
`_cleanup_old_matches` call: either the odds-feed path (store every odds
match commencing in the next 20 hours, pre-alerts disabled) or, when
that yields nothing, the API-Football TEMPORARY-MODE fallback over
today's and tomorrow's fixtures in the monitored leagues. -/
def todayOdds (env : Env) : List OddsData :=
  env.allOdds.filter (fun om => inWindow20h env om.commence_time)

/-- The TEMPORARY-MODE work list: today's and tomorrow's API-Football
fixtures restricted to the monitored leagues and the 20-hour window. -/
def tempItems (env : Env) : List ParsedFixture :=
  (env.fixturesToday ++ env.fixturesTomorrow).filter (fun p =>
    env.settings.leagues_to_monitor_list.contains p.league.api_id && inWindow20h env p.match_date)

/-- One iteration of the odds-feed storing loop (`success` bumps the
count; pre-match alerts are disabled on this path). -/
def oddsItemStep (env : Env) (afd : List (String × ℕ)) (acc : DB × ℕ) (om : OddsData) :
    DB × ℕ :=
  ((storeFixtureFromOdds env afd false om acc.1).1,
   acc.2 + if (storeFixtureFromOdds env afd false om acc.1).2 then 1 else 0)

/-- One iteration of the TEMPORARY-MODE storing loop. -/
def tempItemStep (env : Env) (acc : DB × ℕ) (p : ParsedFixture) : DB × ℕ :=
  ((storeFixtureFromApiFootball env p acc.1).1,
   acc.2 + if (storeFixtureFromApiFootball env p acc.1).2 then 1 else 0)

def fixturesMainPass (env : Env) (db0 : DB) : DB × ℕ :=
  if (todayOdds env).isEmpty then
    (tempItems env).foldl (tempItemStep env) (db0, 0)
  else
    (todayOdds env).foldl
      (oddsItemStep env (buildAfDict (env.fixturesToday ++ env.fixturesTomorrow))) (db0, 0)

/-- `MonitorService.fetch_and_store_fixtures`: stale-match cleanup first,
then the main storing pass.  Returns the number of fixtures stored. -/
def fetchAndStoreFixtures (env : Env) (db : DB) : DB × ℕ :=
  fixturesMainPass env (cleanupOldMatches env db).1

/-! ## `MonitorService.fetch_and_store_odds` -/

/-- `home_norm = home_team_name.replace(" FC", "").replace(" F.C.", "").strip()` -/
def normName (s : String) : String :=
  strTrim (strReplace (strReplace s " FC" "") " F.C." "")

/-- The three-stage team lookup of `fetch_and_store_odds`: exact name,
then normalised name, then case-insensitive substring (`ilike`). -/
def resolveTeamFuzzy (db : DB) (exact norm : String) : Option TeamRow :=
  match teamByName db exact with
  | some t => some t
  | none =>
    match teamByName db norm with
    | some t => some t
    | none => db.teams.find? (fun t => strContains (strToLower t.name) (strToLower norm))

/-- The body of the per-match loop of `fetch_and_store_odds`: fuzzy team
resolution, lookup of the stored `"NS"` match, odds parsing and storage,
favorite determination, threshold gating of `should_monitor`, and the
immediate pre-match alert for low odds.
Returns (state, processed?, alerts sent). -/
def processOddsMatch (env : Env) (om : OddsData) (db : DB) : DB × Bool × ℕ :=
  let hname := (strTrim om.home_team)
  let aname := (strTrim om.away_team)
  let hnorm := normName hname
  let anorm := normName aname
  match resolveTeamFuzzy db hname hnorm, resolveTeamFuzzy db aname anorm with
  | some home_team, some away_team =>
    match db.matches'.find? (fun r =>
        r.home_team_id == home_team.id && r.away_team_id == away_team.id && r.status == "NS") with
    | none => (db, false, 0)
    | some m0 =>
      match parse_odds om with
      | none => (db, false, 0)
      | some po =>
        let favId := if po.favorite_team == "home" then home_team.id else away_team.id
        let m1 : MatchRow :=
          { m0 with home_odds := some po.home_odds, draw_odds := po.draw_odds,
                    away_odds := some po.away_odds, favorite_odds := some po.favorite_odds,
                    favorite_team_id := some favId }
        -- `if match.favorite_odds and match.favorite_odds < threshold`
        if po.favorite_odds != 0 && decide (po.favorite_odds < env.settings.FAVORITE_ODDS_THRESHOLD) then
          let m2 : MatchRow := { m1 with should_monitor := true }
          let db2 := writeRow db m2
          if !m2.notification_sent then
            let (db3, ok) := sendLowOddsAlert env db2 m2 home_team away_team
            (db3, true, if ok then 1 else 0)
          else (db2, true, 0)
        else (writeRow db m1, true, 0)
  | _, _ => (db, false, 0)

/-- `MonitorService.fetch_and_store_odds`: the loop over all odds
matches; returns the number of matches processed (`0` when the feed is
empty). -/
def fetchAndStoreOdds (env : Env) (db : DB) : DB × ℕ :=
  if env.allOdds.isEmpty then (db, 0)
  else
    let r := env.allOdds.foldl (fun acc om =>
      let (d, ok, al) := processOddsMatch env om acc.1
      (d, acc.2.1 + if ok then 1 else 0, acc.2.2 + al)) (db, 0, 0)
    (r.1, r.2.1)

/-! ## `MonitorService.monitor_live_matches` -/

/-- The selection of the monitoring tick:
`Match.should_monitor == True and Match.notification_sent == False`
(no status filter). -/
def selectMonitored (db : DB) : List MatchRow :=
  db.matches'.filter (fun m => m.should_monitor && !m.notification_sent)

def markNotified (db : DB) (mid : ℕ) (t : DT) : DB :=
  { db with matches' := db.matches'.map (fun r =>
      if r.id == mid then { r with notification_sent := true, notified_at := some t } else r) }

/-- Accumulator of the monitoring loop: state, alerts sent so far and —
for auditing claim C6 — the provider ids queried through the
API-Football fallback. -/
structure MonAcc where
  db : DB
  alerts : ℕ
  fallbackIds : List ℕ
  deriving Repr

/-- One iteration of the `monitor_live_matches` loop, for the match row
with primary key `mid`. -/
def monitorStep (env : Env) (acc : MonAcc) (mid : ℕ) : MonAcc :=
  match acc.db.matches'.find? (fun r => r.id == mid) with
  | none => acc
  | some m =>
    match teamById acc.db m.home_team_id, teamById acc.db m.away_team_id with
    | some home, some away =>
      let live := env.liveScores.find? (fun sc =>
        let sh := strToLower sc.home_team
        let sa := strToLower sc.away_team
        let mh := strToLower home.name
        let ma := strToLower away.name
        (strContains sh mh || strContains mh sh) && (strContains sa ma || strContains ma sa))
      match live with
      | none =>
        if env.liveScores.isEmpty then
          -- fallback: query API-Football directly by provider id,
          -- stripping the +1000000 offset
          let realApiId := m.api_id % 1000000
          let fbs := acc.fallbackIds ++ [realApiId]
          match env.apiFootballById realApiId with
          | some p =>
            let m1 : MatchRow :=
              { m with status := p.status, current_minute := p.current_minute,
                       home_score := some (p.home_score.getD 0),
                       away_score := some (p.away_score.getD 0) }
            let db1 := writeRow acc.db m1
            if is_in_monitoring_window env.settings m1 && is_favorite_losing m1 then
              let res := sendAlert env db1 m1
              if res.2 then ⟨markNotified res.1 m1.id env.now, acc.alerts + 1, fbs⟩
              else ⟨res.1, acc.alerts, fbs⟩
            else ⟨db1, acc.alerts, fbs⟩
          | none => ⟨acc.db, acc.alerts, fbs⟩
        else acc
      | some sc =>
        match parse_live_score sc with
        | none => acc
        | some ps =>
          let minute' : Option ℕ :=
            match ps.commence_time with
            | none => m.current_minute
            | some ct =>
              let elapsed : ℤ := (env.now.toSec - ct.toSec).tdiv 60
              if elapsed > 0 then some (min elapsed 90).toNat else none
          let m1 : MatchRow :=
            { m with home_score := some ps.home_score, away_score := some ps.away_score,
                     status := if !ps.completed then "LIVE" else "FT",
                     current_minute := minute' }
          let db1 := writeRow acc.db m1
          if is_in_monitoring_window env.settings m1 && is_favorite_losing m1 then
            let res := sendAlert env db1 m1
            if res.2 then ⟨markNotified res.1 m1.id env.now, acc.alerts + 1, acc.fallbackIds⟩
            else ⟨res.1, acc.alerts, acc.fallbackIds⟩
          else ⟨db1, acc.alerts, acc.fallbackIds⟩
    | _, _ => acc

/-- `MonitorService.monitor_live_matches`: select the monitored,
not-yet-notified matches, fetch the live-score sweep, and run the
per-match loop.  Returns the state, the number of alerts sent, and the
trace of provider ids queried through the API-Football fallback. -/
def monitorLiveMatches (env : Env) (db : DB) : MonAcc :=
  let snapshot := selectMonitored db
  if snapshot.isEmpty then ⟨db, 0, []⟩
  else (snapshot.map (·.id)).foldl (monitorStep env) ⟨db, 0, []⟩

/-! ## Items demo module (`app/schemas/item.py`, `app/api/routes/items.py`) -/

structure Item where
  id : ℕ
  name : String
  description : Option String
  price : ℚ
  is_active : Bool
  deriving Repr, DecidableEq

/-- `ItemUpdate` after validation: `none` = field not supplied
(pydantic's `exclude_unset=True` separates unset fields; an explicitly
supplied `null` is out of scope of every claim and is identified with
"unset" here). -/
structure ItemUpdate where
  name : Option String
  description : Option String
  price : Option ℚ
  is_active : Option Bool
  deriving Repr, DecidableEq

/-- A JSON scalar of an `ItemUpdate` request body. -/
inductive JVal where
  | str (v : String)
  | num (v : ℚ)
  | boolean (v : Bool)
  deriving Repr, DecidableEq

/-- Field-level validation of `ItemUpdate` (`name` 1–100 chars,
`description` ≤ 500 chars, `price` > 0) plus pydantic's
`extra="forbid"`: any unknown key rejects the payload (`none` = the 422
validation error). -/
def parseItemUpdate : List (String × JVal) → Option ItemUpdate
  | [] => some { name := none, description := none, price := none, is_active := none }
  | (k, v) :: rest =>
    match parseItemUpdate rest with
    | none => none
    | some u =>
      if k = "name" then
        match v with
        | .str s => if 1 ≤ s.length ∧ s.length ≤ 100 then some { u with name := some s } else none
        | _ => none
      else if k = "description" then
        match v with
        | .str s => if s.length ≤ 500 then some { u with description := some s } else none
        | _ => none
      else if k = "price" then
        match v with
        | .num q => if 0 < q then some { u with price := some q } else none
        | _ => none
      else if k = "is_active" then
        match v with
        | .boolean b => some { u with is_active := some b }
        | _ => none
      else none

/-- `stored_item.model_copy(update=update_data)`: supplied fields
overwrite, unsupplied fields are kept. -/
def applyItemUpdate (stored : Item) (u : ItemUpdate) : Item :=
  { stored with
      name := u.name.getD stored.name
      description := match u.description with | some d => some d | none => stored.description
      price := u.price.getD stored.price
      is_active := u.is_active.getD stored.is_active }

inductive ApiError where
  | validation   -- HTTP 422
  | notFound     -- HTTP 404
  deriving Repr, DecidableEq

/-- `PUT {prefix}/items/{id}` (`update_item`): body validation happens
before the handler runs (422), then the 404 check, then the partial
update.  Returns the new store and the updated item. -/
def update_item (store : List Item) (itemId : ℕ) (body : List (String × JVal)) :
    Except ApiError (List Item × Item) :=
  match parseItemUpdate body with
  | none => .error .validation
  | some u =>
    match store.find? (fun it => it.id == itemId) with
    | none => .error .notFound
    | some stored =>
      let updated := applyItemUpdate stored u
      .ok (store.map (fun it => if it.id == itemId then updated else it), updated)

/-! # Concrete fixtures used by witnesses and counterexamples -/

def dtX : DT := ⟨2026, 10, 12, 15, 30, 0⟩

def testMatch : MatchRow :=
  { id := 1, api_id := 101, league_id := 1, home_team_id := 10, away_team_id := 20,
    match_date := dtX, status := "1H", current_minute := none,
    home_score := none, away_score := none,
    home_odds := none, draw_odds := none, away_odds := none,
    favorite_team_id := none, favorite_odds := none,
    should_monitor := false, is_monitored := false,
    notification_sent := false, notified_at := none }

/-- The two-bookmaker example of the spec: A quotes home 1.50 / away
2.60, B quotes home 1.45 / away 2.80. -/
def exampleOdds : OddsData :=
  { home_team := "H", away_team := "A", league_key := "soccer_epl", commence_time := dtX,
    bookmakers :=
      [ ⟨"A", [⟨"h2h", [⟨"H", mkRat 3 2⟩, ⟨"A", mkRat 13 5⟩, ⟨"Draw", mkRat 4 1⟩]⟩]⟩,
        ⟨"B", [⟨"h2h", [⟨"H", mkRat 29 20⟩, ⟨"A", mkRat 14 5⟩, ⟨"Draw", mkRat 39 10⟩]⟩]⟩ ] }

/-! # Claims -/

/-- **C3.** For every Match under the default configuration (window
55–62 inclusive), `is_in_monitoring_window` is true exactly when
`current_minute` is present and `55 ≤ current_minute ≤ 62`; minute 60 is
in the window, 54 and 70 are not, and an absent minute is not. -/
theorem C3_monitoring_window :
    (∀ m : MatchRow,
        is_in_monitoring_window defaultSettings m = true ↔
          ∃ x, m.current_minute = some x ∧ 55 ≤ x ∧ x ≤ 62) ∧
    is_in_monitoring_window defaultSettings { testMatch with current_minute := some 60 } = true ∧
    is_in_monitoring_window defaultSettings { testMatch with current_minute := some 54 } = false ∧
    is_in_monitoring_window defaultSettings { testMatch with current_minute := some 70 } = false ∧
    is_in_monitoring_window defaultSettings { testMatch with current_minute := none } = false := by
  refine ⟨?_, by decide, by decide, by decide, by decide⟩
  intro m
  cases hm : m.current_minute with
  | none => simp [is_in_monitoring_window, hm]
  | some x =>
    by_cases hx : x = 0
    · subst hx
      simp [is_in_monitoring_window, hm]
    · simp only [is_in_monitoring_window, hm, if_neg hx, Bool.and_eq_true, decide_eq_true_eq,
        defaultSettings]
      constructor
      · rintro ⟨h1, h2⟩; exact ⟨x, rfl, h1, h2⟩
      · rintro ⟨y, hy, h1, h2⟩; cases hy; exact ⟨h1, h2⟩

/-- **C2.** For every Match whose favorite (when set) is one of its two
teams, `is_favorite_losing` is true exactly when both scores are present
and the favorite's own score is strictly below the opponent's; in
particular with the home team as favorite, 0–2 gives true, 2–0 gives
false, and an absent score gives false. -/
theorem C2_favorite_losing :
    (∀ m : MatchRow,
        (m.favorite_team_id = some m.home_team_id ∨ m.favorite_team_id = some m.away_team_id) →
        m.home_team_id ≠ 0 → m.away_team_id ≠ 0 →
        (is_favorite_losing m = true ↔
          ∃ hs as', m.home_score = some hs ∧ m.away_score = some as' ∧
            (if m.favorite_team_id = some m.home_team_id then hs < as' else as' < hs))) ∧
    is_favorite_losing { testMatch with
      favorite_team_id := some 10
      home_score := some 0
      away_score := some 2 } = true ∧
    is_favorite_losing { testMatch with
      favorite_team_id := some 10
      home_score := some 2
      away_score := some 0 } = false ∧
    is_favorite_losing { testMatch with
      favorite_team_id := some 10
      home_score := none
      away_score := some 2 } = false ∧
    is_favorite_losing { testMatch with
      favorite_team_id := some 10
      home_score := some 0
      away_score := none } = false := by
  refine ⟨?_, by decide, by decide, by decide, by decide⟩
  intro m hfav hh ha
  have htruthy : truthyId m.favorite_team_id = true := by
    rcases hfav with h | h <;> rw [h] <;> simp [truthyId] <;> omega
  cases hhs : m.home_score with
  | none => simp [is_favorite_losing, htruthy, hhs]
  | some hs =>
    cases has : m.away_score with
    | none => simp [is_favorite_losing, htruthy, hhs, has]
    | some as' =>
      simp only [is_favorite_losing, htruthy, hhs, has, Bool.not_true, Bool.false_or,
        Option.getD_some]
      by_cases heq : m.favorite_team_id = some m.home_team_id
      · simp [heq]
      · simp [heq]

/-- Witness for C2 at a concrete input: home favorite, score 0–2. -/
theorem C2_favorite_losing_witness :
    is_favorite_losing { testMatch with
      favorite_team_id := some 10
      home_score := some 0
      away_score := some 2 } = true :=
  (C2_favorite_losing.1 _ (Or.inl rfl) (by decide) (by decide)).mpr
    ⟨0, 2, rfl, rfl, by decide⟩

/-- **C7.** The stale-match cleanup deletes exactly the matches dated
before the start of the current calendar day (no status condition),
returns the number deleted, and `fetch_and_store_fixtures` runs it
first. -/
theorem C7_cleanup_stale_matches :
    ∀ (env : Env) (db : DB),
      (cleanupOldMatches env db).1.matches' =
        db.matches'.filter (fun m =>
          !dtLt m.match_date { env.now with hour := 0, minute := 0, second := 0 }) ∧
      (cleanupOldMatches env db).2 =
        (db.matches'.filter (fun m =>
          dtLt m.match_date { env.now with hour := 0, minute := 0, second := 0 })).length ∧
      fetchAndStoreFixtures env db = fixturesMainPass env (cleanupOldMatches env db).1 :=
  fun _ _ => ⟨rfl, rfl, rfl⟩

/-- A payload containing a key outside the `ItemUpdate` schema is
rejected by validation (`extra="forbid"`). -/
theorem parseItemUpdate_unknown_key (body : List (String × JVal)) (k : String) (v : JVal)
    (hmem : (k, v) ∈ body) (h1 : k ≠ "name") (h2 : k ≠ "description") (h3 : k ≠ "price")
    (h4 : k ≠ "is_active") : parseItemUpdate body = none := by
  induction body with
  | nil => cases hmem
  | cons kv rest ih =>
    rcases List.mem_cons.mp hmem with hkv | hkv
    · obtain ⟨k0, v0⟩ := kv
      obtain ⟨hk, -⟩ := Prod.mk.injEq .. ▸ hkv.symm
      subst hk
      cases h : parseItemUpdate rest <;> simp [parseItemUpdate, h, h1, h2, h3, h4]
    · obtain ⟨k0, v0⟩ := kv
      simp [parseItemUpdate, ih hkv]

/-- **C9.** A `PUT` update of a demo item with any subset of fields
changes only the supplied fields and leaves the rest unchanged; a
payload with an unknown field is rejected by validation; updating a
non-existent id is a 404. -/
theorem C9_items_partial_update :
    (∀ (store : List Item) (itemId : ℕ) (body : List (String × JVal)) (u : ItemUpdate)
        (stored : Item),
        parseItemUpdate body = some u →
        store.find? (fun it => it.id == itemId) = some stored →
        update_item store itemId body =
          .ok (store.map (fun it => if it.id == itemId then applyItemUpdate stored u else it),
               applyItemUpdate stored u) ∧
        (u.name = none → (applyItemUpdate stored u).name = stored.name) ∧
        (u.description = none → (applyItemUpdate stored u).description = stored.description) ∧
        (u.price = none → (applyItemUpdate stored u).price = stored.price) ∧
        (u.is_active = none → (applyItemUpdate stored u).is_active = stored.is_active) ∧
        (∀ w, u.name = some w → (applyItemUpdate stored u).name = w) ∧
        (∀ w, u.description = some w → (applyItemUpdate stored u).description = some w) ∧
        (∀ w, u.price = some w → (applyItemUpdate stored u).price = w) ∧
        (∀ w, u.is_active = some w → (applyItemUpdate stored u).is_active = w)) ∧
    (∀ (store : List Item) (itemId : ℕ) (body : List (String × JVal)) (k : String) (v : JVal),
        (k, v) ∈ body → k ≠ "name" → k ≠ "description" → k ≠ "price" → k ≠ "is_active" →
        update_item store itemId body = .error .validation) ∧
    (∀ (store : List Item) (itemId : ℕ) (body : List (String × JVal)) (u : ItemUpdate),
        parseItemUpdate body = some u →
        store.find? (fun it => it.id == itemId) = none →
        update_item store itemId body = .error .notFound) := by
  refine ⟨?_, ?_, ?_⟩
  · intro store itemId body u stored hparse hfind
    refine ⟨?_, ?_, ?_, ?_, ?_, ?_, ?_, ?_, ?_⟩
    · simp [update_item, hparse, hfind]
    all_goals intro h
    all_goals try intro hw
    · simp [applyItemUpdate, h]
    · simp [applyItemUpdate, h]
    · simp [applyItemUpdate, h]
    · simp [applyItemUpdate, h]
    · simp [applyItemUpdate, hw]
    · simp [applyItemUpdate, hw]
    · simp [applyItemUpdate, hw]
    · simp [applyItemUpdate, hw]
  · intro store itemId body k v hmem h1 h2 h3 h4
    simp [update_item, parseItemUpdate_unknown_key body k v hmem h1 h2 h3 h4]
  · intro store itemId body u hparse hfind
    simp [update_item, hparse, hfind]

def testItem : Item :=
  { id := 1, name := "Test Item", description := some "A test item",
    price := mkRat 9999 100, is_active := true }

/-- `{name: "Updated Item", price: 59.99}` -/
def testBody : List (String × JVal) :=
  [("name", .str "Updated Item"), ("price", .num (mkRat 5999 100))]

def testUpd : ItemUpdate :=
  { name := some "Updated Item", description := none,
    price := some (mkRat 5999 100), is_active := none }

/-- Witness for C9: the spec's lifecycle update at a concrete store;
the description field is untouched. -/
theorem C9_items_partial_update_witness :
    update_item [testItem] 1 testBody =
      .ok ([testItem].map (fun it => if it.id == 1 then applyItemUpdate testItem testUpd else it),
           applyItemUpdate testItem testUpd) ∧
    (applyItemUpdate testItem testUpd).description = testItem.description ∧
    (applyItemUpdate testItem testUpd).name = "Updated Item" := by
  have h := C9_items_partial_update.1 [testItem] 1 testBody testUpd testItem (by decide) (by decide)
  exact ⟨h.1, h.2.2.1 rfl, h.2.2.2.2.2.1 "Updated Item" rfl⟩

/-! Concrete store for the alert-path witnesses. -/

def testTeamH : TeamRow := ⟨10, 500, "Home FC"⟩

def testTeamA : TeamRow := ⟨20, 501, "Away FC"⟩

def testLeague : LeagueRow := ⟨1, 39, "soccer_epl", "Unknown", 2026⟩

def alertMatch : MatchRow :=
  { testMatch with
      favorite_team_id := some 10
      favorite_odds := some (mkRat 13 10)
      should_monitor := true }

def testDB : DB :=
  { leagues := [testLeague], teams := [testTeamH, testTeamA], matches' := [alertMatch],
    notifications := [], nextLeagueId := 2, nextTeamId := 3, nextMatchId := 2,
    nextNotificationId := 1 }

/-- An environment whose notifier delivery succeeds. -/
def okEnv : Env :=
  { settings := defaultSettings, pyHash := fun s => s.length, year := 2026, now := dtX,
    allOdds := [], fixturesToday := [], fixturesTomorrow := [], liveScores := [],
    apiFootballById := fun _ => none, sendMessage := fun _ => true }

/-- An environment whose notifier delivery fails. -/
def failEnv : Env := { okEnv with sendMessage := fun _ => false }

/-- **C5.** Notification bookkeeping is asymmetric: a live-alert
dispatch (with resolvable teams/league/favorite and present favorite
odds) always writes exactly one Notification row, `"sent"` on delivery
success and `"failed"` on failure; a low-odds pre-match dispatch writes
a row (and marks the Match notified) only when delivery succeeds, and
leaves the store untouched on failure. -/
theorem C5_notification_bookkeeping :
    (∀ (env : Env) (db : DB) (m : MatchRow) (home away : TeamRow) (league : LeagueRow)
        (fav : TeamRow) (fq : ℚ),
        teamById db m.home_team_id = some home →
        teamById db m.away_team_id = some away →
        leagueById db m.league_id = some league →
        m.favorite_team_id.bind (teamById db) = some fav →
        m.favorite_odds = some fq →
        (let ok := env.sendMessage (liveAlertMessage home.name away.name league.name fav.name fq
          (m.current_minute.getD 0) (m.home_score.getD 0) (m.away_score.getD 0))
         sendAlert env db m =
          ({ db with
              notifications := db.notifications ++
                [⟨db.nextNotificationId, m.id,
                  "Alert sent for " ++ home.name ++ " vs " ++ away.name,
                  if ok then "sent" else "failed"⟩],
              nextNotificationId := db.nextNotificationId + 1 },
           ok)) ∧
        (sendAlert env db m).1.notifications.length = db.notifications.length + 1) ∧
    (∀ (env : Env) (db : DB) (m : MatchRow) (home away : TeamRow) (league : LeagueRow)
        (fav : TeamRow) (fq : ℚ),
        leagueById db m.league_id = some league →
        m.favorite_team_id.bind (teamById db) = some fav →
        m.favorite_odds = some fq →
        (let ok := env.sendMessage (lowOddsMessage home.name away.name league.name fav.name fq
          (fmtTime m.match_date))
         sendLowOddsAlert env db m home away =
          if ok then
            ({ db with
                matches' := db.matches'.map (fun r =>
                  if r.id == m.id then { r with notification_sent := true } else r),
                notifications := db.notifications ++
                  [⟨db.nextNotificationId, m.id,
                    "Low odds alert: " ++ home.name ++ " vs " ++ away.name
                      ++ " (" ++ qStr fq ++ ")", "sent"⟩],
                nextNotificationId := db.nextNotificationId + 1 },
             true)
          else (db, false)) ∧
        ((sendLowOddsAlert env db m home away).2 = false →
          (sendLowOddsAlert env db m home away).1 = db)) := by
  constructor
  · intro env db m home away league fav fq h1 h2 h3 h4 h5
    have hmain :
        sendAlert env db m =
          ({ db with
              notifications := db.notifications ++
                [⟨db.nextNotificationId, m.id,
                  "Alert sent for " ++ home.name ++ " vs " ++ away.name,
                  if env.sendMessage (liveAlertMessage home.name away.name league.name fav.name fq
                      (m.current_minute.getD 0) (m.home_score.getD 0) (m.away_score.getD 0))
                  then "sent" else "failed"⟩],
              nextNotificationId := db.nextNotificationId + 1 },
           env.sendMessage (liveAlertMessage home.name away.name league.name fav.name fq
              (m.current_minute.getD 0) (m.home_score.getD 0) (m.away_score.getD 0))) := by
      simp [sendAlert, h1, h2, h3, h4, h5]
    refine ⟨hmain, ?_⟩
    rw [hmain]
    simp
  · intro env db m home away league fav fq h3 h4 h5
    have hmain :
        sendLowOddsAlert env db m home away =
          if env.sendMessage (lowOddsMessage home.name away.name league.name fav.name fq
              (fmtTime m.match_date)) then
            ({ db with
                matches' := db.matches'.map (fun r =>
                  if r.id == m.id then { r with notification_sent := true } else r),
                notifications := db.notifications ++
                  [⟨db.nextNotificationId, m.id,
                    "Low odds alert: " ++ home.name ++ " vs " ++ away.name
                      ++ " (" ++ qStr fq ++ ")", "sent"⟩],
                nextNotificationId := db.nextNotificationId + 1 },
             true)
          else (db, false) := by
      simp [sendLowOddsAlert, h3, h4, h5]
    refine ⟨hmain, ?_⟩
    intro hfail
    rw [hmain] at hfail ⊢
    by_cases hok : env.sendMessage (lowOddsMessage home.name away.name league.name fav.name fq
        (fmtTime m.match_date)) = true
    · rw [if_pos hok] at hfail
      simp at hfail
    · rw [if_neg hok]

/-- Witness for C5: with the concrete store, a successful live alert
appends one row, and a failed low-odds alert leaves the store
untouched. -/
theorem C5_notification_bookkeeping_witness :
    (sendAlert okEnv testDB alertMatch).1.notifications.length =
      testDB.notifications.length + 1 ∧
    (sendLowOddsAlert failEnv testDB alertMatch testTeamH testTeamA).1 = testDB := by
  have hA := (C5_notification_bookkeeping.1 okEnv testDB alertMatch testTeamH testTeamA
    testLeague testTeamH (mkRat 13 10) rfl rfl rfl rfl rfl).2
  have hB := (C5_notification_bookkeeping.2 failEnv testDB alertMatch testTeamH testTeamA
    testLeague testTeamH (mkRat 13 10) rfl rfl rfl).2 (by decide)
  exact ⟨hA, hB⟩

/-- **C10.** A successfully delivered low-odds pre-match alert marks the
Match row notified, and the monitoring tick only ever selects rows with
`notification_sent = false` — so such a row is never selected again and
never receives the live alert. -/
theorem C10_prematch_alert_suppresses_live_alert :
    (∀ (db : DB) (m : MatchRow), m ∈ selectMonitored db → m.notification_sent = false) ∧
    (∀ (env : Env) (db : DB) (m : MatchRow) (home away : TeamRow) (db' : DB),
        sendLowOddsAlert env db m home away = (db', true) →
        (∀ r ∈ db'.matches', r.id = m.id → r.notification_sent = true) ∧
        (∀ r ∈ db'.matches', r.id = m.id → r ∉ selectMonitored db')) := by
  have hsel : ∀ (db : DB) (m : MatchRow), m ∈ selectMonitored db → m.notification_sent = false := by
    intro db m hm
    have := List.of_mem_filter hm
    simp only [Bool.and_eq_true, Bool.not_eq_true'] at this
    exact this.2
  refine ⟨hsel, ?_⟩
  intro env db m home away db' hok
  have hmark : ∀ r ∈ db'.matches', r.id = m.id → r.notification_sent = true := by
    intro r hr hid
    unfold sendLowOddsAlert at hok
    rcases hL : leagueById db m.league_id with - | league
    · rw [hL] at hok; simp at hok
    rcases hF : m.favorite_team_id.bind (teamById db) with - | fav
    · rw [hL, hF] at hok; simp at hok
    rcases hQ : m.favorite_odds with - | fq
    · rw [hL, hF, hQ] at hok; simp at hok
    rw [hL, hF, hQ] at hok
    dsimp only at hok
    by_cases hsend : env.sendMessage (lowOddsMessage home.name away.name league.name fav.name fq
        (fmtTime m.match_date)) = true
    · rw [if_pos hsend] at hok
      obtain ⟨hdb, -⟩ := Prod.mk.injEq .. ▸ hok
      subst hdb
      simp only [List.mem_map] at hr
      obtain ⟨r0, -, hr0⟩ := hr
      by_cases h0 : (r0.id == m.id) = true
      · rw [if_pos h0] at hr0
        rw [← hr0]
      · rw [if_neg h0] at hr0
        subst hr0
        exact absurd (by simpa using hid) h0
    · rw [if_neg hsend] at hok
      simp at hok
  refine ⟨hmark, ?_⟩
  intro r hr hid hselmem
  have := hsel db' r hselmem
  rw [hmark r hr hid] at this
  cases this

/-- Witness for C10: after the concrete successful low-odds alert, the
marked row is no longer selected by the monitoring tick. -/
theorem C10_prematch_alert_suppresses_live_alert_witness :
    ({ alertMatch with notification_sent := true } : MatchRow).notification_sent = true ∧
    { alertMatch with notification_sent := true } ∉
      selectMonitored (sendLowOddsAlert okEnv testDB alertMatch testTeamH testTeamA).1 := by
  have h := (C10_prematch_alert_suppresses_live_alert.2 okEnv testDB alertMatch testTeamH testTeamA
    (sendLowOddsAlert okEnv testDB alertMatch testTeamH testTeamA).1 (by decide)).2
  exact ⟨rfl, h { alertMatch with notification_sent := true } (by decide) rfl⟩

/-! ## C1: `parse_odds` computes per-outcome minima across bookmakers -/

/-- The effect of one `parse_odds` loop iteration on a single running
minimum. -/
def minStep (nm : String) (b : Option ℚ) (bk : Bookmaker) : Option ℚ :=
  match findH2h bk.markets with
  | none => b
  | some m => updMin (findPrice m.outcomes nm) b

/-- Merge an optional new price into an optional minimum. -/
def omin (c b : Option ℚ) : Option ℚ :=
  match c, b with
  | none, b => b
  | some p, none => some p
  | some p, some q => some (min p q)

theorem minStep_eq_updMin (nm : String) (b : Option ℚ) (bk : Bookmaker) :
    minStep nm b bk = updMin (bkPrice nm bk) b := by
  unfold minStep bkPrice
  cases findH2h bk.markets <;> rfl

theorem updMin_eq_omin (c b : Option ℚ) (hc : ∀ p, c = some p → 0 < p) :
    updMin c b = omin c b := by
  cases c with
  | none => rfl
  | some p =>
    have hp : ¬p = 0 := by
      have := hc p rfl
      exact fun h => by simp [h] at this
    cases b with
    | none => simp [updMin, omin, hp]
    | some q =>
      simp only [updMin, omin, if_neg hp]
      by_cases hpq : p < q
      · rw [if_pos hpq, min_eq_left hpq.le]
      · rw [if_neg hpq, min_eq_right (le_of_not_lt hpq)]

theorem foldl_min_mem (xs : List ℚ) : ∀ x : ℚ, xs.foldl min x = x ∨ xs.foldl min x ∈ xs := by
  induction xs with
  | nil => intro x; exact Or.inl rfl
  | cons y ys ih =>
    intro x
    rcases ih (min x y) with h | h
    · rcases min_choice x y with hm | hm
      · exact Or.inl (by rw [List.foldl_cons, h, hm])
      · exact Or.inr (by rw [List.foldl_cons, h, hm]; exact List.mem_cons_self y ys)
    · exact Or.inr (List.mem_cons_of_mem y h)

theorem foldl_min_le_init (xs : List ℚ) : ∀ x : ℚ, xs.foldl min x ≤ x := by
  induction xs with
  | nil => intro x; exact le_refl x
  | cons y ys ih =>
    intro x
    calc ys.foldl min (min x y) ≤ min x y := ih (min x y)
    _ ≤ x := min_le_left x y

theorem foldl_min_le_mem (xs : List ℚ) : ∀ (x p : ℚ), p ∈ xs → xs.foldl min x ≤ p := by
  induction xs with
  | nil => intro x p hp; cases hp
  | cons y ys ih =>
    intro x p hp
    rcases List.mem_cons.mp hp with h | h
    · subst h
      calc ys.foldl min (min x p) ≤ min x p := foldl_min_le_init ys (min x p)
      _ ≤ p := min_le_right x p
    · exact ih (min x y) p h

theorem listMin_mem (l : List ℚ) (a : ℚ) (h : listMin l = some a) : a ∈ l := by
  cases l with
  | nil => cases h
  | cons x xs =>
    have ha : xs.foldl min x = a := by simpa [listMin] using h
    rcases foldl_min_mem xs x with h' | h'
    · rw [ha] at h'; exact h' ▸ List.mem_cons_self x xs
    · rw [ha] at h'; exact List.mem_cons_of_mem x h'

theorem listMin_le (l : List ℚ) (a : ℚ) (h : listMin l = some a) : ∀ p ∈ l, a ≤ p := by
  cases l with
  | nil => cases h
  | cons x xs =>
    have ha : xs.foldl min x = a := by simpa [listMin] using h
    intro p hp
    rcases List.mem_cons.mp hp with h' | h'
    · subst h'; rw [← ha]; exact foldl_min_le_init xs p
    · rw [← ha]; exact foldl_min_le_mem xs x p h'

theorem listMin_eq_none_iff (l : List ℚ) : listMin l = none ↔ l = [] := by
  cases l <;> simp [listMin]

/-- The running minimum of `parse_odds` over a list of bookmakers equals
the minimum of the contributed prices (when all contributed prices are
positive, so Python's truthiness test never drops one). -/
theorem foldl_minStep_eq (nm : String) :
    ∀ (l : List Bookmaker) (b : Option ℚ),
      (∀ bk ∈ l, ∀ p, bkPrice nm bk = some p → 0 < p) →
      l.foldl (minStep nm) b =
        (match b with
         | none => listMin (l.filterMap (bkPrice nm))
         | some q => some ((l.filterMap (bkPrice nm)).foldl min q)) := by
  intro l
  induction l with
  | nil => intro b _; cases b <;> rfl
  | cons bk l ih =>
    intro b hpos
    have hbk : ∀ p, bkPrice nm bk = some p → 0 < p :=
      fun p hp => hpos bk (List.mem_cons_self bk l) p hp
    have hl : ∀ bk' ∈ l, ∀ p, bkPrice nm bk' = some p → 0 < p :=
      fun bk' h p hp => hpos bk' (List.mem_cons_of_mem bk h) p hp
    rw [List.foldl_cons, minStep_eq_updMin, updMin_eq_omin _ _ hbk]
    cases hc : bkPrice nm bk with
    | none =>
      rw [List.filterMap_cons_none hc]
      cases b with
      | none => exact ih none hl
      | some q => exact ih (some q) hl
    | some p =>
      rw [List.filterMap_cons_some hc]
      cases b with
      | none =>
        rw [show omin (some p) none = some p from rfl, ih (some p) hl]
        rfl
      | some q =>
        rw [show omin (some p) (some q) = some (min p q) from rfl, ih (some (min p q)) hl]
        simp only [List.foldl_cons, min_comm p q]

theorem foldl_oddsStep_home (od : OddsData) :
    ∀ (l : List Bookmaker) (acc : OddsAcc),
      (l.foldl (oddsStep od) acc).home = l.foldl (minStep od.home_team) acc.home := by
  intro l
  induction l with
  | nil => intro acc; rfl
  | cons bk l ih =>
    intro acc
    rw [List.foldl_cons, List.foldl_cons, ih]
    congr 1
    unfold oddsStep minStep
    cases findH2h bk.markets <;> rfl

theorem foldl_oddsStep_away (od : OddsData) :
    ∀ (l : List Bookmaker) (acc : OddsAcc),
      (l.foldl (oddsStep od) acc).away = l.foldl (minStep od.away_team) acc.away := by
  intro l
  induction l with
  | nil => intro acc; rfl
  | cons bk l ih =>
    intro acc
    rw [List.foldl_cons, List.foldl_cons, ih]
    congr 1
    unfold oddsStep minStep
    cases findH2h bk.markets <;> rfl

theorem foldl_oddsStep_draw (od : OddsData) :
    ∀ (l : List Bookmaker) (acc : OddsAcc),
      (l.foldl (oddsStep od) acc).draw = l.foldl (minStep "Draw") acc.draw := by
  intro l
  induction l with
  | nil => intro acc; rfl
  | cons bk l ih =>
    intro acc
    rw [List.foldl_cons, List.foldl_cons, ih]
    congr 1
    unfold oddsStep minStep
    cases findH2h bk.markets <;> rfl

/-- All prices quoted anywhere in a raw odds record are positive
(decimal odds are ≥ 1 in reality; positivity is what Python's
truthiness test in `parse_odds` needs to be harmless). -/
def oddsPositive (od : OddsData) : Prop :=
  ∀ bk ∈ od.bookmakers, ∀ mk ∈ bk.markets, ∀ o ∈ mk.outcomes, 0 < o.price

theorem bkPrice_pos (od : OddsData) (hpos : oddsPositive od) (nm : String) :
    ∀ bk ∈ od.bookmakers, ∀ p, bkPrice nm bk = some p → 0 < p := by
  intro bk hbk p hp
  unfold bkPrice at hp
  cases hm : findH2h bk.markets with
  | none => rw [hm] at hp; cases hp
  | some mk =>
    rw [hm] at hp
    have hmem : mk ∈ bk.markets := List.mem_of_find?_eq_some hm
    have hp2 : findPrice mk.outcomes nm = some p := hp
    unfold findPrice at hp2
    cases ho : mk.outcomes.find? (fun o => o.name == nm) with
    | none => rw [ho] at hp2; cases hp2
    | some o =>
      rw [ho] at hp2
      have homem : o ∈ mk.outcomes := List.mem_of_find?_eq_some ho
      have : o.price = p := by simpa using hp2
      rw [← this]
      exact hpos bk hbk mk hmem o homem

/-- The two per-side minima computed by the `parse_odds` fold. -/
theorem parse_odds_acc (od : OddsData) (hpos : oddsPositive od) :
    (od.bookmakers.foldl (oddsStep od) ⟨none, none, none, none⟩).home =
        listMin (h2hPrices od od.home_team) ∧
    (od.bookmakers.foldl (oddsStep od) ⟨none, none, none, none⟩).away =
        listMin (h2hPrices od od.away_team) ∧
    (od.bookmakers.foldl (oddsStep od) ⟨none, none, none, none⟩).draw =
        listMin (h2hPrices od "Draw") := by
  refine ⟨?_, ?_, ?_⟩
  · rw [foldl_oddsStep_home, foldl_minStep_eq od.home_team od.bookmakers none
      (bkPrice_pos od hpos od.home_team)]
    rfl
  · rw [foldl_oddsStep_away, foldl_minStep_eq od.away_team od.bookmakers none
      (bkPrice_pos od hpos od.away_team)]
    rfl
  · rw [foldl_oddsStep_draw, foldl_minStep_eq "Draw" od.bookmakers none
      (bkPrice_pos od hpos "Draw")]
    rfl

theorem finishParse_eq_none_iff (acc : OddsAcc) :
    finishParse acc = none ↔ acc.home = none ∨ acc.away = none := by
  obtain ⟨oh, oa, odr, ob⟩ := acc
  cases oh <;> cases oa <;> simp [finishParse]
  split <;> simp

theorem finishParse_some (acc : OddsAcc) (r : ParsedOdds) (h : finishParse acc = some r) :
    acc.home = some r.home_odds ∧ acc.away = some r.away_odds ∧ r.draw_odds = acc.draw ∧
    ((r.home_odds < r.away_odds ∧ r.favorite_team = "home" ∧ r.favorite_odds = r.home_odds) ∨
     (r.away_odds ≤ r.home_odds ∧ r.favorite_team = "away" ∧ r.favorite_odds = r.away_odds)) := by
  obtain ⟨oh, oa, odr, ob⟩ := acc
  cases oh with
  | none => simp [finishParse] at h
  | some hq =>
    cases oa with
    | none => simp [finishParse] at h
    | some aq =>
      by_cases hlt : hq < aq
      · rw [show finishParse ⟨some hq, some aq, odr, ob⟩ =
            some ⟨hq, aq, odr, "home", hq, ob⟩ from by simp [finishParse, if_pos hlt]] at h
        cases h
        exact ⟨rfl, rfl, rfl, Or.inl ⟨hlt, rfl, rfl⟩⟩
      · rw [show finishParse ⟨some hq, some aq, odr, ob⟩ =
            some ⟨hq, aq, odr, "away", aq, ob⟩ from by simp [finishParse, if_neg hlt]] at h
        cases h
        exact ⟨rfl, rfl, rfl, Or.inr ⟨le_of_not_lt hlt, rfl, rfl⟩⟩

/-- **C1.** For every raw odds record with positive prices,
`parse_odds` computes — independently for home, away and draw — the
minimum price over the bookmakers that offer an h2h market; it returns
`none` exactly when no bookmaker yields both a home and an away price;
the favorite is the side with the lower aggregated price, at that
price.  The spec's two-bookmaker example (1.50/2.60 and 1.45/2.80)
yields home 1.45, away 2.60, favorite home at 1.45. -/
theorem C1_parse_odds_min_across_bookmakers :
    (∀ od : OddsData, oddsPositive od →
      ((parse_odds od = none ↔
          h2hPrices od od.home_team = [] ∨ h2hPrices od od.away_team = []) ∧
       (∀ r, parse_odds od = some r →
          some r.home_odds = listMin (h2hPrices od od.home_team) ∧
          r.home_odds ∈ h2hPrices od od.home_team ∧
          (∀ p ∈ h2hPrices od od.home_team, r.home_odds ≤ p) ∧
          some r.away_odds = listMin (h2hPrices od od.away_team) ∧
          r.away_odds ∈ h2hPrices od od.away_team ∧
          (∀ p ∈ h2hPrices od od.away_team, r.away_odds ≤ p) ∧
          r.draw_odds = listMin (h2hPrices od "Draw") ∧
          r.favorite_odds = min r.home_odds r.away_odds ∧
          (r.home_odds < r.away_odds → r.favorite_team = "home" ∧ r.favorite_odds = r.home_odds) ∧
          (r.away_odds ≤ r.home_odds → r.favorite_team = "away" ∧ r.favorite_odds = r.away_odds)))) ∧
    parse_odds exampleOdds =
      some ⟨mkRat 29 20, mkRat 13 5, some (mkRat 39 10), "home", mkRat 29 20, some "B"⟩ := by
  constructor
  · intro od hpos
    obtain ⟨hhome, haway, hdraw⟩ := parse_odds_acc od hpos
    by_cases hemp : od.bookmakers.isEmpty
    · have hnil : od.bookmakers = [] := List.isEmpty_iff.mp hemp
      have hlists : h2hPrices od od.home_team = [] := by simp [h2hPrices, hnil]
      have hpe : parse_odds od = none := by rw [parse_odds, if_pos hemp]
      constructor
      · simp [hpe, hlists]
      · intro r hr
        rw [hpe] at hr
        cases hr
    · have hpe : parse_odds od =
          finishParse (od.bookmakers.foldl (oddsStep od) ⟨none, none, none, none⟩) := by
        rw [parse_odds, if_neg hemp]
      constructor
      · rw [hpe, finishParse_eq_none_iff, hhome, haway, listMin_eq_none_iff, listMin_eq_none_iff]
      · intro r hr
        rw [hpe] at hr
        obtain ⟨hah, haa, had, hfav⟩ := finishParse_some _ _ hr
        have hh' : listMin (h2hPrices od od.home_team) = some r.home_odds := by
          rw [← hhome, hah]
        have ha' : listMin (h2hPrices od od.away_team) = some r.away_odds := by
          rw [← haway, haa]
        refine ⟨hh'.symm, listMin_mem _ _ hh', listMin_le _ _ hh',
          ha'.symm, listMin_mem _ _ ha', listMin_le _ _ ha',
          by rw [had, hdraw], ?_, ?_, ?_⟩
        · rcases hfav with ⟨hlt, -, ho⟩ | ⟨hge, -, ho⟩
          · rw [ho, min_eq_left hlt.le]
          · rw [ho, min_eq_right hge]
        · intro hlt
          rcases hfav with ⟨-, ht, ho⟩ | ⟨hge, -, -⟩
          · exact ⟨ht, ho⟩
          · exact absurd hlt (not_lt_of_le hge)
        · intro hle
          rcases hfav with ⟨hlt, -, -⟩ | ⟨-, ht, ho⟩
          · exact absurd hle (not_le_of_lt hlt)
          · exact ⟨ht, ho⟩
  · decide

/-- Witness for C1: the positivity hypothesis holds at the concrete
two-bookmaker example, and the theorem's none-characterisation applies
there. -/
theorem C1_parse_odds_min_across_bookmakers_witness :
    parse_odds exampleOdds = none ↔
      h2hPrices exampleOdds exampleOdds.home_team = [] ∨
      h2hPrices exampleOdds exampleOdds.away_team = [] :=
  (C1_parse_odds_min_across_bookmakers.1 exampleOdds
    (by unfold oddsPositive; decide)).1

/-! ## C4: threshold gating of `should_monitor` -/

theorem listMapCongr {α β : Type} (l : List α) (f g : α → β) (h : ∀ a ∈ l, f a = g a) :
    l.map f = l.map g := by
  induction l with
  | nil => rfl
  | cons x xs ih =>
    simp only [List.map_cons, h x (List.mem_cons_self x xs)]
    rw [ih (fun a ha => h a (List.mem_cons_of_mem x ha))]

theorem getOrCreateLeague_frame (env : Env) (k : String) (db : DB) :
    (getOrCreateLeague env k db).1.matches' = db.matches' ∧
    (getOrCreateLeague env k db).1.nextMatchId = db.nextMatchId ∧
    (getOrCreateLeague env k db).1.teams = db.teams ∧
    (getOrCreateLeague env k db).1.notifications = db.notifications := by
  unfold getOrCreateLeague
  split
  · exact ⟨rfl, rfl, rfl, rfl⟩
  · dsimp only
    split
    · exact ⟨rfl, rfl, rfl, rfl⟩
    · exact ⟨rfl, rfl, rfl, rfl⟩

theorem getOrCreateTeam_frame (env : Env) (n : String) (db : DB) :
    (getOrCreateTeam env n db).1.matches' = db.matches' ∧
    (getOrCreateTeam env n db).1.nextMatchId = db.nextMatchId ∧
    (getOrCreateTeam env n db).1.leagues = db.leagues ∧
    (getOrCreateTeam env n db).1.notifications = db.notifications := by
  unfold getOrCreateTeam
  split
  · exact ⟨rfl, rfl, rfl, rfl⟩
  · dsimp only
    split
    · exact ⟨rfl, rfl, rfl, rfl⟩
    · exact ⟨rfl, rfl, rfl, rfl⟩

/-- Every row of the store after a low-odds alert is either an original
row or an original row with `notification_sent` set. -/
theorem sendLowOddsAlert_matches_mem (env : Env) (db : DB) (m : MatchRow) (h a : TeamRow)
    (r : MatchRow) (hr : r ∈ ((sendLowOddsAlert env db m h a).1).matches') :
    r ∈ db.matches' ∨ ∃ r0 ∈ db.matches', r = { r0 with notification_sent := true } := by
  unfold sendLowOddsAlert at hr
  split at hr
  · split at hr
    · exact Or.inl hr
    · dsimp only at hr
      split at hr
      · simp only [List.mem_map] at hr
        obtain ⟨r0, hr0, hmap⟩ := hr
        by_cases hid : (r0.id == m.id) = true
        · rw [if_pos hid] at hmap
          exact Or.inr ⟨r0, hr0, hmap.symm⟩
        · rw [if_neg hid] at hmap
          exact Or.inl (hmap ▸ hr0)
      · exact Or.inl hr
  · exact Or.inl hr

/-- Rows present after the creation branch: the originals (possibly with
`notification_sent` set, for pathological stores) and the new row
(possibly with `notification_sent` set by the pre-match alert). -/
theorem storeOddsCreate_mem (env : Env) (afd : List (String × ℕ)) (sa : Bool) (om : OddsData)
    (league : LeagueRow) (ht at' : TeamRow) (db3 : DB) (r : MatchRow)
    (hr : r ∈ (storeOddsCreate env afd sa om league ht at' db3).1.matches') :
    r ∈ db3.matches' ∨ (∃ r0 ∈ db3.matches', r = { r0 with notification_sent := true }) ∨
    r = storeOddsNewRow env afd om league ht at' db3 ∨
    r = { storeOddsNewRow env afd om league ht at' db3 with notification_sent := true } := by
  unfold storeOddsCreate at hr
  dsimp only at hr
  split at hr
  · exact Or.inl hr
  · split at hr
    · rcases sendLowOddsAlert_matches_mem _ _ _ _ _ _ hr with hmem | ⟨r0, hr0, hns⟩
      · simp only [List.mem_append, List.mem_singleton] at hmem
        rcases hmem with hmem | hmem
        · exact Or.inl hmem
        · exact Or.inr (Or.inr (Or.inl hmem))
      · simp only [List.mem_append, List.mem_singleton] at hr0
        rcases hr0 with hr0 | hr0
        · exact Or.inr (Or.inl ⟨r0, hr0, hns⟩)
        · exact Or.inr (Or.inr (Or.inr (by rw [hns, hr0])))
    · simp only [List.mem_append, List.mem_singleton] at hr
      rcases hr with hmem | hmem
      · exact Or.inl hmem
      · exact Or.inr (Or.inr (Or.inl hmem))

theorem storeOddsNewRow_parsed (env : Env) (afd : List (String × ℕ)) (om : OddsData)
    (league : LeagueRow) (ht at' : TeamRow) (db3 : DB) (po : ParsedOdds)
    (hpo : parse_odds om = some po) :
    (storeOddsNewRow env afd om league ht at' db3).should_monitor =
      decide (po.favorite_odds < env.settings.FAVORITE_ODDS_THRESHOLD) ∧
    (storeOddsNewRow env afd om league ht at' db3).favorite_odds = some po.favorite_odds := by
  unfold storeOddsNewRow
  rw [hpo]
  exact ⟨rfl, rfl⟩

/-- `should_monitor` and `favorite_odds` of an updated-odds row survive
the `notification_sent` flag. -/
theorem ns_flag_frame (r : MatchRow) :
    ({ r with notification_sent := true } : MatchRow).should_monitor = r.should_monitor ∧
    ({ r with notification_sent := true } : MatchRow).favorite_odds = r.favorite_odds ∧
    ({ r with notification_sent := true } : MatchRow).id = r.id :=
  ⟨rfl, rfl, rfl⟩

/-- The `(id, should_monitor)` projection of the store is untouched by a
low-odds alert. -/
theorem sendLowOddsAlert_proj {α : Type} (env : Env) (db : DB) (m : MatchRow) (h a : TeamRow)
    (g : MatchRow → α) (hg : ∀ r, g { r with notification_sent := true } = g r) :
    ((sendLowOddsAlert env db m h a).1).matches'.map g = db.matches'.map g := by
  unfold sendLowOddsAlert
  split
  · split
    · rfl
    · dsimp only
      split
      · simp only []
        rw [List.map_map]
        refine listMapCongr _ _ _ (fun r _ => ?_)
        simp only [Function.comp]
        by_cases hid : (r.id == m.id) = true
        · rw [if_pos hid, hg]
        · rw [if_neg hid]
      · rfl
  · rfl

/-- **C4 (amended).** In `_store_fixture_from_odds`, a **newly created**
Match whose odds parsed gets `should_monitor` by the strict comparison
`favorite_odds < FAVORITE_ODDS_THRESHOLD` (and stores those favorite
odds); in `fetch_and_store_odds`, a processed match's `should_monitor`
is turned on exactly when its truthy favorite odds are strictly below
the threshold, and is left unchanged otherwise.  (When odds parsing
fails, `_store_fixture_from_odds` instead stores the match with
`should_monitor = true` and no odds — the debug mode refuted by the
counterexample.) -/
theorem C4_threshold_gating :
    (∀ (env : Env) (afd : List (String × ℕ)) (sa : Bool) (om : OddsData) (db : DB)
        (po : ParsedOdds) (r : MatchRow),
        parse_odds om = some po →
        r ∈ (storeFixtureFromOdds env afd sa om db).1.matches' →
        r.id ∉ db.matches'.map (·.id) →
        r.should_monitor = decide (po.favorite_odds < env.settings.FAVORITE_ODDS_THRESHOLD) ∧
        r.favorite_odds = some po.favorite_odds) ∧
    (∀ (env : Env) (om : OddsData) (db : DB) (ht at' : TeamRow) (m0 : MatchRow)
        (po : ParsedOdds),
        resolveTeamFuzzy db (strTrim om.home_team) (normName (strTrim om.home_team)) = some ht →
        resolveTeamFuzzy db (strTrim om.away_team) (normName (strTrim om.away_team)) = some at' →
        db.matches'.find? (fun r =>
          r.home_team_id == ht.id && r.away_team_id == at'.id && r.status == "NS") = some m0 →
        parse_odds om = some po →
        ((processOddsMatch env om db).1.matches'.map (fun r => (r.id, r.should_monitor))) =
          db.matches'.map (fun r =>
            (r.id, if r.id = m0.id then
              (m0.should_monitor ||
                (po.favorite_odds != 0 &&
                  decide (po.favorite_odds < env.settings.FAVORITE_ODDS_THRESHOLD)))
            else r.should_monitor))) := by
  constructor
  · intro env afd sa om db po r hpo hr hid
    unfold storeFixtureFromOdds at hr
    rcases hL : getOrCreateLeague env om.league_key db with ⟨db1, ol⟩
    rw [hL] at hr
    have hL1 : db1.matches' = db.matches' := by
      have := (getOrCreateLeague_frame env om.league_key db).1
      rw [hL] at this; exact this
    cases ol with
    | none =>
      exact absurd (List.mem_map_of_mem (·.id) (hL1 ▸ hr)) hid
    | some league =>
      dsimp only at hr
      rcases hH : getOrCreateTeam env (strTrim om.home_team) db1 with ⟨db2, oh⟩
      rw [hH] at hr
      have hH1 : db2.matches' = db.matches' := by
        have := (getOrCreateTeam_frame env (strTrim om.home_team) db1).1
        rw [hH] at this; rw [this, hL1]
      cases oh with
      | none =>
        exact absurd (List.mem_map_of_mem (·.id) (hH1 ▸ hr)) hid
      | some home_team =>
        dsimp only at hr
        rcases hA : getOrCreateTeam env (strTrim om.away_team) db2 with ⟨db3, oa⟩
        rw [hA] at hr
        have hA1 : db3.matches' = db.matches' := by
          have := (getOrCreateTeam_frame env (strTrim om.away_team) db2).1
          rw [hA] at this; rw [this, hH1]
        cases oa with
        | none =>
          exact absurd (List.mem_map_of_mem (·.id) (hA1 ▸ hr)) hid
        | some away_team =>
          dsimp only at hr
          split at hr
          · -- creation branch
            rcases storeOddsCreate_mem env afd sa om league home_team away_team db3 r hr with
              hmem | ⟨r0, hr0, hns⟩ | hnew | hnew
            · exact absurd (List.mem_map_of_mem (·.id) (hA1 ▸ hmem)) hid
            · have : r.id = r0.id := by rw [hns]
              rw [this] at hid
              exact absurd (List.mem_map_of_mem (·.id) (hA1 ▸ hr0)) hid
            · obtain ⟨h1, h2⟩ := storeOddsNewRow_parsed env afd om league home_team away_team
                db3 po hpo
              rw [hnew]
              exact ⟨h1, h2⟩
            · obtain ⟨h1, h2⟩ := storeOddsNewRow_parsed env afd om league home_team away_team
                db3 po hpo
              rw [hnew]
              exact ⟨(ns_flag_frame _).1.trans h1, (ns_flag_frame _).2.1.trans h2⟩
          · -- update branch: every row keeps an original id
            rename_i m0 hfind
            unfold storeOddsUpdate at hr
            rw [hpo] at hr
            dsimp only at hr
            simp only [List.mem_map] at hr
            obtain ⟨r0, hr0, hmap⟩ := hr
            unfold refreshOdds at hmap
            have : r.id = r0.id := by
              by_cases h0 : (r0.id == m0.id) = true
              · rw [if_pos h0] at hmap; rw [← hmap]
              · rw [if_neg h0] at hmap; rw [← hmap]
            rw [this] at hid
            exact absurd (List.mem_map_of_mem (·.id) (hA1 ▸ hr0)) hid
  · intro env om db ht at' m0 po hht hat hm0 hpo
    unfold processOddsMatch
    dsimp only
    rw [hht, hat]
    dsimp only
    rw [hm0, hpo]
    dsimp only
    cases hcond : (po.favorite_odds != 0 &&
        decide (po.favorite_odds < env.settings.FAVORITE_ODDS_THRESHOLD)) with
    | false =>
      rw [if_neg Bool.false_ne_true]
      unfold writeRow
      dsimp only
      rw [List.map_map]
      refine listMapCongr _ _ _ (fun r _ => ?_)
      simp only [Function.comp]
      by_cases h0 : r.id = m0.id
      · rw [if_pos (by simpa using h0), if_pos h0]
        simp [h0]
      · rw [if_neg (by simpa using h0), if_neg h0]
    | true =>
      rw [if_pos rfl]
      by_cases hns : m0.notification_sent = true
      · rw [if_neg (by simp [hns])]
        unfold writeRow
        dsimp only
        rw [List.map_map]
        refine listMapCongr _ _ _ (fun r _ => ?_)
        simp only [Function.comp]
        by_cases h0 : r.id = m0.id
        · rw [if_pos (by simpa using h0), if_pos h0, Bool.or_true]
          simp [h0]
        · rw [if_neg (by simpa using h0), if_neg h0]
      · rw [if_pos (by simp [hns])]
        dsimp only
        rw [sendLowOddsAlert_proj _ _ _ _ _ (fun r => (r.id, r.should_monitor)) (fun r => rfl)]
        unfold writeRow
        dsimp only
        rw [List.map_map]
        refine listMapCongr _ _ _ (fun r _ => ?_)
        simp only [Function.comp]
        by_cases h0 : r.id = m0.id
        · rw [if_pos (by simpa using h0), if_pos h0, Bool.or_true]
          simp [h0]
        · rw [if_neg (by simpa using h0), if_neg h0]

def emptyDB : DB := ⟨[], [], [], [], 1, 1, 1, 1⟩

/-- A feed entry whose odds cannot be parsed (no bookmakers). -/
def noOddsMatch : OddsData :=
  { home_team := "Alpha", away_team := "Betaxx", league_key := "soccer_xx",
    commence_time := dtX, bookmakers := [] }

/-- Counterexample to C4 as stated: `_store_fixture_from_odds` stores a
match whose odds did **not** parse with `should_monitor = true` and no
favorite odds at all (the "debug mode" branch), so `should_monitor`
is not gated by `favorite_odds < threshold` for every stored match. -/
theorem C4_counterexample :
    parse_odds noOddsMatch = none ∧
    ((storeFixtureFromOdds okEnv [] false noOddsMatch emptyDB).1.matches'.map
      (fun r => (r.should_monitor, r.favorite_odds))) = [(true, none)] := by
  constructor
  · rfl
  · decide

/-- A feed entry with favorite odds 1.30 (below the 1.35 threshold). -/
def om13 : OddsData :=
  { home_team := "Alphaz", away_team := "Betamax", league_key := "soccer_xx",
    commence_time := dtX,
    bookmakers := [⟨"BK", [⟨"h2h", [⟨"Alphaz", mkRat 13 10⟩, ⟨"Betamax", mkRat 13 5⟩]⟩]⟩] }

def po13 : ParsedOdds :=
  { home_odds := mkRat 13 10, away_odds := mkRat 13 5, draw_odds := none,
    favorite_team := "home", favorite_odds := mkRat 13 10, bookmaker := some "BK" }

/-- The row `om13` creates in the empty store under `okEnv`. -/
def c4Row : MatchRow :=
  { id := 1, api_id := 33, league_id := 1, home_team_id := 1, away_team_id := 2,
    match_date := dtX, status := "NS", current_minute := none,
    home_score := none, away_score := none,
    home_odds := some (mkRat 13 10), draw_odds := none, away_odds := some (mkRat 13 5),
    favorite_team_id := some 1, favorite_odds := some (mkRat 13 10),
    should_monitor := true, is_monitored := false,
    notification_sent := false, notified_at := none }

/-- A feed entry with favorite odds 1.40 (above the 1.35 threshold). -/
def om14 : OddsData :=
  { home_team := "Home FC", away_team := "Away FC", league_key := "soccer_epl",
    commence_time := dtX,
    bookmakers := [⟨"BK", [⟨"h2h", [⟨"Home FC", mkRat 7 5⟩, ⟨"Away FC", mkRat 13 5⟩]⟩]⟩] }

def po14 : ParsedOdds :=
  { home_odds := mkRat 7 5, away_odds := mkRat 13 5, draw_odds := none,
    favorite_team := "home", favorite_odds := mkRat 7 5, bookmaker := some "BK" }

def nsMatch : MatchRow := { testMatch with status := "NS" }

def nsDB : DB := { testDB with matches' := [nsMatch] }

/-- Witness for the amended C4: favorite odds 1.30 < 1.35 makes the
newly created row monitored; favorite odds 1.40 leaves the existing
unmonitored `"NS"` match unmonitored in `fetch_and_store_odds`. -/
theorem C4_threshold_gating_witness :
    c4Row.should_monitor = true ∧
    ((processOddsMatch okEnv om14 nsDB).1.matches'.map
      (fun r => (r.id, r.should_monitor))) = [(1, false)] := by
  have h1 := C4_threshold_gating.1 okEnv [] false om13 emptyDB po13 c4Row
    (by decide) (by decide) (by decide)
  have h2 := C4_threshold_gating.2 okEnv om14 nsDB testTeamH testTeamA nsMatch po14
    (by decide) (by decide) (by decide) (by decide)
  exact ⟨h1.1.trans (by decide), h2.trans (by decide)⟩

/-! ## C6: the live-monitoring fallback query -/

/-- The columns of a Match row that the monitoring loop never changes:
primary key, provider id and the two team keys. -/
def monKey (r : MatchRow) : ℕ × ℕ × ℕ × ℕ :=
  (r.id, r.api_id, r.home_team_id, r.away_team_id)

theorem sendAlert_frame (env : Env) (db : DB) (m : MatchRow) :
    (sendAlert env db m).1.matches' = db.matches' ∧
    (sendAlert env db m).1.teams = db.teams := by
  unfold sendAlert
  split
  · split
    · exact ⟨rfl, rfl⟩
    · exact ⟨rfl, rfl⟩
  · exact ⟨rfl, rfl⟩

theorem writeRow_key (db : DB) (m1 : MatchRow)
    (hexists : ∀ r ∈ db.matches', r.id = m1.id → monKey m1 = monKey r) :
    (writeRow db m1).matches'.map monKey = db.matches'.map monKey := by
  unfold writeRow
  dsimp only
  rw [List.map_map]
  exact listMapCongr _ _ _ (fun r hr => by
    simp only [Function.comp]
    by_cases h0 : (r.id == m1.id) = true
    · rw [if_pos h0, (hexists r hr (by simpa using h0)).symm]
    · rw [if_neg h0])

theorem writeRow_teams (db : DB) (m1 : MatchRow) : (writeRow db m1).teams = db.teams := rfl

theorem markNotified_key (db : DB) (mid : ℕ) (t : DT) :
    (markNotified db mid t).matches'.map monKey = db.matches'.map monKey ∧
    (markNotified db mid t).teams = db.teams := by
  refine ⟨?_, rfl⟩
  unfold markNotified
  dsimp only
  rw [List.map_map]
  exact listMapCongr _ _ _ (fun r _ => by
    simp only [Function.comp]
    by_cases h0 : (r.id == mid) = true
    · rw [if_pos h0]; rfl
    · rw [if_neg h0])

/-- The composite state transformations a monitoring iteration performs
(update, alert, mark) keep the teams table and the match key columns,
given globally distinct primary keys. -/
theorem monitorWrite_frame (env : Env) (db : DB) {m m1 : MatchRow} (t : DT)
    (hids : (db.matches'.map (fun r => r.id)).Nodup)
    (hm : m ∈ db.matches') (hid : m1.id = m.id) (hkey : monKey m1 = monKey m) :
    (writeRow db m1).teams = db.teams ∧
    (writeRow db m1).matches'.map monKey = db.matches'.map monKey ∧
    (sendAlert env (writeRow db m1) m1).1.teams = db.teams ∧
    (sendAlert env (writeRow db m1) m1).1.matches'.map monKey = db.matches'.map monKey ∧
    (markNotified (sendAlert env (writeRow db m1) m1).1 m1.id t).teams = db.teams ∧
    (markNotified (sendAlert env (writeRow db m1) m1).1 m1.id t).matches'.map monKey =
      db.matches'.map monKey := by
  have hexists : ∀ r ∈ db.matches', r.id = m1.id → monKey m1 = monKey r := by
    intro r hr hrid
    have : r = m := List.inj_on_of_nodup_map hids hr hm (by rw [hrid, hid])
    rw [this, hkey]
  have h1 := writeRow_key db m1 hexists
  have h2 := sendAlert_frame env (writeRow db m1) m1
  have h3 := markNotified_key (sendAlert env (writeRow db m1) m1).1 m1.id t
  refine ⟨writeRow_teams db m1, h1, ?_, ?_, ?_, ?_⟩
  · rw [h2.2, writeRow_teams]
  · rw [h2.1, h1]
  · rw [h3.2, h2.2, writeRow_teams]
  · rw [h3.1, h2.1, h1]

/-- The three-way alerting tail of a monitoring iteration (update only /
update then alert / update, alert and mark) keeps the teams table and
the match key columns. -/
theorem monAccState_frame (env : Env) (db : DB) {m m1 : MatchRow} (t : DT) (c1 c2 : Bool)
    (a1 a2 a3 : ℕ) (f1 f2 f3 : List ℕ)
    (hids : (db.matches'.map (fun r => r.id)).Nodup)
    (hm : m ∈ db.matches') (hid : m1.id = m.id) (hkey : monKey m1 = monKey m) :
    ((if c1 = true then
        (if c2 = true then
          (⟨markNotified (sendAlert env (writeRow db m1) m1).1 m1.id t, a1, f1⟩ : MonAcc)
        else ⟨(sendAlert env (writeRow db m1) m1).1, a2, f2⟩)
      else ⟨writeRow db m1, a3, f3⟩) : MonAcc).db.teams = db.teams ∧
    ((if c1 = true then
        (if c2 = true then
          (⟨markNotified (sendAlert env (writeRow db m1) m1).1 m1.id t, a1, f1⟩ : MonAcc)
        else ⟨(sendAlert env (writeRow db m1) m1).1, a2, f2⟩)
      else ⟨writeRow db m1, a3, f3⟩) : MonAcc).db.matches'.map monKey =
      db.matches'.map monKey := by
  have h := monitorWrite_frame env db t hids hm hid hkey
  cases c1 with
  | false => exact ⟨h.1, h.2.1⟩
  | true =>
    cases c2 with
    | false => exact ⟨h.2.2.1, h.2.2.2.1⟩
    | true => exact ⟨h.2.2.2.2.1, h.2.2.2.2.2⟩

/-- One monitoring iteration never changes the teams table or the key
columns of the match rows (given globally distinct primary keys). -/
theorem monitorStep_frame (env : Env) (acc : MonAcc) (mid : ℕ)
    (hids : (acc.db.matches'.map (fun r => r.id)).Nodup) :
    (monitorStep env acc mid).db.teams = acc.db.teams ∧
    (monitorStep env acc mid).db.matches'.map monKey = acc.db.matches'.map monKey := by
  unfold monitorStep
  split
  · exact ⟨rfl, rfl⟩
  case h_2 m hm =>
    have hmmem : m ∈ acc.db.matches' := List.mem_of_find?_eq_some hm
    split
    case h_2 => exact ⟨rfl, rfl⟩
    case h_1 =>
      dsimp only
      split
      · -- no live-score entry matched
        split
        · -- fallback query by provider id
          split
          · -- fixture data returned
            exact monAccState_frame env acc.db env.now _ _ _ _ _ _ _ _ hids hmmem
              (by rfl) (by rfl)
          · exact ⟨rfl, rfl⟩
        · exact ⟨rfl, rfl⟩
      · -- live-score branch
        split
        · exact ⟨rfl, rfl⟩
        · exact monAccState_frame env acc.db env.now _ _ _ _ _ _ _ _ hids hmmem
            (by rfl) (by rfl)

/-- The fallback-trace component of the alerting tail: always the list
the branch was entered with. -/
theorem monAccState_fallback (env : Env) (db : DB) (m1 : MatchRow) (t : DT) (c1 c2 : Bool)
    (a1 a2 a3 : ℕ) (f : List ℕ) :
    ((if c1 = true then
        (if c2 = true then
          (⟨markNotified (sendAlert env (writeRow db m1) m1).1 m1.id t, a1, f⟩ : MonAcc)
        else ⟨(sendAlert env (writeRow db m1) m1).1, a2, f⟩)
      else ⟨writeRow db m1, a3, f⟩) : MonAcc).fallbackIds = f := by
  cases c1 with
  | false => rfl
  | true => cases c2 with
    | false => rfl
    | true => rfl

/-- A monitoring iteration records no fallback query while the
live-score sweep is non-empty. -/
theorem monitorStep_no_fallback (env : Env) (acc : MonAcc) (mid : ℕ)
    (h : env.liveScores ≠ []) :
    (monitorStep env acc mid).fallbackIds = acc.fallbackIds := by
  have hne : env.liveScores.isEmpty = false := by
    cases hl : env.liveScores with
    | nil => exact absurd hl h
    | cons x xs => rfl
  unfold monitorStep
  split
  · rfl
  split
  case h_2 => rfl
  case h_1 =>
    dsimp only
    split
    · rw [if_neg (by rw [hne]; exact Bool.false_ne_true)]
    · split
      · rfl
      · exact monAccState_fallback env acc.db _ env.now _ _ _ _ _ _

/-- What a single iteration contributes to the fallback trace when the
sweep is empty: the de-offset provider id of the row, provided the row
and its two teams resolve. -/
def fbContribution (db : DB) (mid : ℕ) : List ℕ :=
  match db.matches'.find? (fun r => r.id == mid) with
  | none => []
  | some m =>
    match teamById db m.home_team_id, teamById db m.away_team_id with
    | some _, some _ => [m.api_id % 1000000]
    | _, _ => []

/-- With an empty live-score sweep, every iteration appends exactly its
`fbContribution` to the fallback trace. -/
theorem monitorStep_fallback_contrib (env : Env) (acc : MonAcc) (mid : ℕ)
    (hLS : env.liveScores = []) :
    (monitorStep env acc mid).fallbackIds = acc.fallbackIds ++ fbContribution acc.db mid := by
  unfold monitorStep fbContribution
  split
  · simp
  split
  case h_2 => simp
  case h_1 =>
    dsimp only
    rw [hLS]
    dsimp only [List.find?]
    rw [if_pos (show ([] : List ScoreData).isEmpty = true from rfl)]
    split
    · exact monAccState_fallback env acc.db _ env.now _ _ _ _ _ _
    · rfl

theorem ids_eq_of_monKey_eq (l l' : List MatchRow)
    (hk : l.map monKey = l'.map monKey) :
    l.map (fun r => r.id) = l'.map (fun r => r.id) := by
  have haux : ∀ (L : List MatchRow),
      L.map (fun r => r.id) = (L.map monKey).map (fun k => k.1) := by
    intro L; rw [List.map_map]; rfl
  rw [haux, haux, hk]

/-- `find?` by primary key only looks at the key columns. -/
theorem find?_id_congr (mid : ℕ) :
    ∀ (l l' : List MatchRow), l.map monKey = l'.map monKey →
      (l.find? (fun r => r.id == mid)).map monKey =
        (l'.find? (fun r => r.id == mid)).map monKey := by
  intro l
  induction l with
  | nil =>
    intro l' hk
    have hl' : l' = [] := List.map_eq_nil_iff.mp (by rw [← hk]; rfl)
    rw [hl']
  | cons x xs ih =>
    intro l' hk
    cases l' with
    | nil => cases hk
    | cons y ys =>
      simp only [List.map_cons, List.cons.injEq] at hk
      obtain ⟨hxy, hrest⟩ := hk
      have hid : x.id = y.id := congrArg (fun k => k.1) hxy
      by_cases hx : (x.id == mid) = true
      · have hy : (y.id == mid) = true := by rw [← hid]; exact hx
        simp only [List.find?_cons, hx, hy, if_true]
        simpa using hxy
      · have hy : (y.id == mid) = false := by rw [← hid]; simpa using hx
        simp only [List.find?_cons, hx, hy, Bool.false_eq_true, if_false]
        exact ih ys hrest

/-- `fbContribution` only depends on the teams table and the key
columns of the match rows. -/
theorem fbContribution_congr (db db0 : DB) (mid : ℕ)
    (ht : db.teams = db0.teams)
    (hk : db.matches'.map monKey = db0.matches'.map monKey) :
    fbContribution db mid = fbContribution db0 mid := by
  have hfind := find?_id_congr mid db.matches' db0.matches' hk
  unfold fbContribution
  cases h1 : db.matches'.find? (fun r => r.id == mid) with
  | none =>
    rw [h1] at hfind
    cases h2 : db0.matches'.find? (fun r => r.id == mid) with
    | none => rfl
    | some m' => rw [h2] at hfind; cases hfind
  | some m =>
    rw [h1] at hfind
    cases h2 : db0.matches'.find? (fun r => r.id == mid) with
    | none => rw [h2] at hfind; cases hfind
    | some m' =>
      rw [h2] at hfind
      have hkey : monKey m = monKey m' := by simpa using hfind
      have hh : m.home_team_id = m'.home_team_id := congrArg (fun k => k.2.2.1) hkey
      have ha : m.away_team_id = m'.away_team_id := congrArg (fun k => k.2.2.2) hkey
      have hapi : m.api_id = m'.api_id := congrArg (fun k => k.2.1) hkey
      dsimp only
      rw [show teamById db m.home_team_id = teamById db0 m'.home_team_id by
            unfold teamById; rw [ht, hh],
          show teamById db m.away_team_id = teamById db0 m'.away_team_id by
            unfold teamById; rw [ht, ha],
          hapi]

/-- Fold form of the empty-sweep fallback trace. -/
theorem monitor_fold_fallback (env : Env) (hLS : env.liveScores = []) (db0 : DB)
    (hnod : (db0.matches'.map (fun r => r.id)).Nodup) :
    ∀ (ids : List ℕ) (acc : MonAcc),
      acc.db.teams = db0.teams →
      acc.db.matches'.map monKey = db0.matches'.map monKey →
      (ids.foldl (monitorStep env) acc).fallbackIds =
        acc.fallbackIds ++ ids.foldr (fun mid rest => fbContribution db0 mid ++ rest) [] := by
  intro ids
  induction ids with
  | nil => intro acc _ _; simp
  | cons mid ids ih =>
    intro acc hteams hkeys
    have hacc_ids : (acc.db.matches'.map (fun r => r.id)).Nodup := by
      rw [ids_eq_of_monKey_eq _ _ hkeys]; exact hnod
    have hframe := monitorStep_frame env acc mid hacc_ids
    have hstep := monitorStep_fallback_contrib env acc mid hLS
    rw [List.foldl_cons,
      ih (monitorStep env acc mid) (by rw [hframe.1, hteams]) (by rw [hframe.2, hkeys]),
      hstep, fbContribution_congr acc.db db0 mid hteams hkeys]
    simp [List.append_assoc]

theorem monitor_fold_no_fallback (env : Env) (h : env.liveScores ≠ []) :
    ∀ (ids : List ℕ) (acc : MonAcc),
      (ids.foldl (monitorStep env) acc).fallbackIds = acc.fallbackIds := by
  intro ids
  induction ids with
  | nil => intro acc; rfl
  | cons mid ids ih =>
    intro acc
    rw [List.foldl_cons, ih, monitorStep_no_fallback env acc mid h]

theorem find?_id_self (l : List MatchRow) (hnod : (l.map (fun r => r.id)).Nodup)
    (m : MatchRow) (hm : m ∈ l) : l.find? (fun r => r.id == m.id) = some m := by
  induction l with
  | nil => cases hm
  | cons x xs ih =>
    simp only [List.map_cons, List.nodup_cons] at hnod
    by_cases hx : (x.id == m.id) = true
    · simp only [List.find?_cons, hx, if_true]
      rcases List.mem_cons.mp hm with hmx | hmx
      · rw [hmx]
      · have hxe : x.id = m.id := by simpa using hx
        have hmem : x.id ∈ List.map (fun r => r.id) xs := by
          rw [hxe]; exact List.mem_map_of_mem (fun r => r.id) hmx
        exact absurd hmem hnod.1
    · rcases List.mem_cons.mp hm with hmx | hmx
      · exact absurd (by rw [hmx]; simp) hx
      · have hx' : (x.id == m.id) = false := by simpa using hx
        simp only [List.find?_cons, hx', Bool.false_eq_true, if_false]
        exact ih hnod.2 hmx

/-- Whether both teams of a row resolve by id. -/
def teamsResolvable (db : DB) (m : MatchRow) : Bool :=
  (teamById db m.home_team_id).isSome && (teamById db m.away_team_id).isSome

theorem fbContribution_of_mem (db : DB) (hnod : (db.matches'.map (fun r => r.id)).Nodup)
    (m : MatchRow) (hm : m ∈ db.matches') :
    fbContribution db m.id = if teamsResolvable db m then [m.api_id % 1000000] else [] := by
  unfold fbContribution
  rw [find?_id_self db.matches' hnod m hm]
  unfold teamsResolvable
  cases hh : teamById db m.home_team_id with
  | none => simp [hh]
  | some ht =>
    cases ha : teamById db m.away_team_id with
    | none => simp [hh, ha]
    | some at' => simp [hh, ha]

theorem fold_contrib_eq_filter_map (db : DB)
    (hnod : (db.matches'.map (fun r => r.id)).Nodup) :
    ∀ (ms : List MatchRow), (∀ m ∈ ms, m ∈ db.matches') →
      ((ms.map (fun r => r.id)).foldr (fun mid rest => fbContribution db mid ++ rest) []) =
        (ms.filter (teamsResolvable db)).map (fun m => m.api_id % 1000000) := by
  intro ms
  induction ms with
  | nil => intro _; rfl
  | cons m ms ih =>
    intro hsub
    have hm : m ∈ db.matches' := hsub m (List.mem_cons_self m ms)
    simp only [List.map_cons, List.foldr_cons]
    rw [ih (fun r hr => hsub r (List.mem_cons_of_mem m hr)),
      fbContribution_of_mem db hnod m hm]
    by_cases hres : teamsResolvable db m = true
    · rw [if_pos hres, List.filter_cons_of_pos hres, List.map_cons]
      rfl
    · rw [if_neg hres, List.filter_cons_of_neg (by simpa using hres)]
      rfl

/-- **C6 (amended).** In `monitor_live_matches`, the direct API-Football
fallback query happens only when the live-score sweep returned no data
at all, and then it is issued for **every** selected match whose teams
resolve — with the match's provider id reduced modulo 1,000,000 and with
no 500,000-based synthetic-id skip (the counterexample queries id
600,000). -/
theorem C6_fallback_queries :
    (∀ (env : Env) (db : DB), env.liveScores ≠ [] →
        (monitorLiveMatches env db).fallbackIds = []) ∧
    (∀ (env : Env) (db : DB), env.liveScores = [] →
        (db.matches'.map (fun r => r.id)).Nodup →
        (monitorLiveMatches env db).fallbackIds =
          ((selectMonitored db).filter (teamsResolvable db)).map
            (fun m => m.api_id % 1000000)) := by
  constructor
  · intro env db h
    unfold monitorLiveMatches
    dsimp only
    split
    · rfl
    · exact monitor_fold_no_fallback env h _ _
  · intro env db hLS hnod
    unfold monitorLiveMatches
    dsimp only
    split
    case isTrue hemp =>
      rw [List.isEmpty_iff.mp hemp]
      rfl
    case isFalse hemp =>
      rw [monitor_fold_fallback env hLS db hnod _ _ rfl rfl, List.nil_append,
        fold_contrib_eq_filter_map db hnod (selectMonitored db)
          (fun m hm => List.mem_of_mem_filter hm)]

/-- A monitored match with a synthetic-looking provider id above
500,000. -/
def c6Match : MatchRow := { testMatch with api_id := 600000, should_monitor := true }

def c6DB : DB := { testDB with matches' := [c6Match] }

/-- Counterexample to C6 as stated: with an empty live-score sweep, the
match with provider id 600,000 — above the claimed 500,000 synthetic-id
bound — is **not** skipped: the fallback queries API-Football for id
600,000. -/
theorem C6_counterexample :
    c6Match.api_id > 500000 ∧
    (monitorLiveMatches okEnv c6DB).fallbackIds = [600000] := by
  constructor
  · decide
  · decide

def liveScoreX : ScoreData :=
  { home_team := "X", away_team := "Y", completed := false, scores := [],
    commence_time := none, league_key := "soccer_epl" }

def liveEnv : Env := { okEnv with liveScores := [liveScoreX] }

/-- Witness for the amended C6 at concrete inputs: with a non-empty
sweep no fallback query is made; with an empty sweep the one resolvable
monitored match is queried at its id mod 1,000,000. -/
theorem C6_fallback_queries_witness :
    (monitorLiveMatches liveEnv c6DB).fallbackIds = [] ∧
    (monitorLiveMatches okEnv c6DB).fallbackIds = [600000] := by
  have h1 := C6_fallback_queries.1 liveEnv c6DB (by decide)
  have h2 := C6_fallback_queries.2 okEnv c6DB rfl (by decide)
  exact ⟨h1, h2.trans (by decide)⟩

/-! ## C8: idempotence of `fetch_and_store_fixtures` -/

theorem find?_append_some {α : Type} (p : α → Bool) :
    ∀ (l₁ l₂ : List α) (a : α), l₁.find? p = some a → (l₁ ++ l₂).find? p = some a := by
  intro l₁
  induction l₁ with
  | nil => intro l₂ a h; cases h
  | cons x xs ih =>
    intro l₂ a h
    by_cases hx : p x = true
    · simp only [List.cons_append, List.find?_cons, hx, if_true] at h ⊢
      exact h
    · have hx' : p x = false := by simpa using hx
      simp only [List.cons_append, List.find?_cons, hx', Bool.false_eq_true, if_false] at h ⊢
      exact ih l₂ a h

theorem find?_append_none {α : Type} (p : α → Bool) :
    ∀ (l₁ l₂ : List α), l₁.find? p = none → (l₁ ++ l₂).find? p = l₂.find? p := by
  intro l₁
  induction l₁ with
  | nil => intro l₂ _; rfl
  | cons x xs ih =>
    intro l₂ h
    by_cases hx : p x = true
    · simp only [List.find?_cons, hx, if_true] at h; cases h
    · have hx' : p x = false := by simpa using hx
      simp only [List.cons_append, List.find?_cons, hx', Bool.false_eq_true, if_false] at h ⊢
      exact ih l₂ h

theorem anyMapInv {α : Type} (l : List α) (f : α → α) (p : α → Bool)
    (h : ∀ a, p (f a) = p a) : (l.map f).any p = l.any p := by
  induction l with
  | nil => rfl
  | cons x xs ih => simp only [List.map_cons, List.any_cons, h, ih]

/-- The identity columns of a Match row: primary key, provider id, the
team pair and the kickoff datetime — everything except the mutable odds
and monitoring columns. -/
def keyF (r : MatchRow) : ℕ × ℕ × ℕ × ℕ × DT :=
  (r.id, r.api_id, r.home_team_id, r.away_team_id, r.match_date)

/-- The provider id the creation branch of `_store_fixture_from_odds`
assigns to this odds item. -/
def oddsApiId (env : Env) (afd : List (String × ℕ)) (om : OddsData) : ℕ :=
  chooseApiId env (lookupRealApiId afd (strTrim om.home_team) (strTrim om.away_team))
    (strTrim om.home_team) (strTrim om.away_team) om.commence_time

/-- Creating a League named `key` is impossible and stays so: no league
has the name, and the pseudo id a new one would get is already taken. -/
def leagueBlocked (env : Env) (db : DB) (key : String) : Prop :=
  leagueByName db key = none ∧
    db.leagues.any (fun l => l.api_id == env.pyHash key % 1000000) = true

def teamBlocked (env : Env) (db : DB) (n : String) : Prop :=
  teamByName db n = none ∧
    db.teams.any (fun t => t.api_id == env.pyHash n % 1000000) = true

/-- State left behind by one processing of an odds item: either one of
its get-or-create stages is permanently blocked, or both teams resolve
and the store holds a same-pair window row or a row already carrying
the provider id the creation branch would pick. -/
def oddsSettled (env : Env) (afd : List (String × ℕ)) (om : OddsData) (db : DB) : Prop :=
  leagueBlocked env db om.league_key ∨
  teamBlocked env db (strTrim om.home_team) ∨
  teamBlocked env db (strTrim om.away_team) ∨
  (∃ ht aw, teamByName db (strTrim om.home_team) = some ht ∧
    teamByName db (strTrim om.away_team) = some aw ∧
    (db.matches'.any (windowPred om ht.id aw.id) = true ∨
     db.matches'.any (fun r => r.api_id == oddsApiId env afd om) = true))

/-- The monotone facts preserved by every operation of the odds-feed
storing pass. -/
structure DBGrows (env : Env) (db db' : DB) : Prop where
  lblock : ∀ key, leagueBlocked env db key → leagueBlocked env db' key
  tblock : ∀ n, teamBlocked env db n → teamBlocked env db' n
  tname : ∀ n t, teamByName db n = some t → teamByName db' n = some t
  wany : ∀ om hid aid, db.matches'.any (windowPred om hid aid) = true →
    db'.matches'.any (windowPred om hid aid) = true
  aany : ∀ x, db.matches'.any (fun r => r.api_id == x) = true →
    db'.matches'.any (fun r => r.api_id == x) = true

theorem dbGrows_refl (env : Env) (db : DB) : DBGrows env db db :=
  ⟨fun _ h => h, fun _ h => h, fun _ _ h => h, fun _ _ _ h => h, fun _ h => h⟩

theorem dbGrows_trans {env : Env} {a b c : DB} (h1 : DBGrows env a b) (h2 : DBGrows env b c) :
    DBGrows env a c :=
  ⟨fun k h => h2.lblock k (h1.lblock k h),
   fun n h => h2.tblock n (h1.tblock n h),
   fun n t h => h2.tname n t (h1.tname n t h),
   fun om hid aid h => h2.wany om hid aid (h1.wany om hid aid h),
   fun x h => h2.aany x (h1.aany x h)⟩

theorem oddsSettled_mono {env : Env} {afd : List (String × ℕ)} {om : OddsData} {db db' : DB}
    (hs : oddsSettled env afd om db) (hg : DBGrows env db db') :
    oddsSettled env afd om db' := by
  rcases hs with h | h | h | ⟨ht, aw, h1, h2, h3 | h3⟩
  · exact Or.inl (hg.lblock _ h)
  · exact Or.inr (Or.inl (hg.tblock _ h))
  · exact Or.inr (Or.inr (Or.inl (hg.tblock _ h)))
  · exact Or.inr (Or.inr (Or.inr
      ⟨ht, aw, hg.tname _ _ h1, hg.tname _ _ h2, Or.inl (hg.wany _ _ _ h3)⟩))
  · exact Or.inr (Or.inr (Or.inr
      ⟨ht, aw, hg.tname _ _ h1, hg.tname _ _ h2, Or.inr (hg.aany _ h3)⟩))

theorem getOrCreateLeague_spec (env : Env) (key : String) (db : DB) :
    (getOrCreateLeague env key db = (db, none) ∧ leagueBlocked env db key) ∨
    (∃ l, getOrCreateLeague env key db = (db, some l)) ∨
    (∃ l, getOrCreateLeague env key db =
        ({ db with leagues := db.leagues ++ [l], nextLeagueId := db.nextLeagueId + 1 }, some l) ∧
      l.name = key ∧ l.api_id = env.pyHash key % 1000000 ∧
      db.leagues.any (fun l0 => l0.api_id == env.pyHash key % 1000000) = false) := by
  unfold getOrCreateLeague
  cases hq : leagueByName db key with
  | some l => exact Or.inr (Or.inl ⟨l, rfl⟩)
  | none =>
    dsimp only
    cases hc : db.leagues.any (fun l => l.api_id == env.pyHash key % 1000000) with
    | true =>
      rw [if_pos rfl]
      exact Or.inl ⟨rfl, hq, hc⟩
    | false =>
      rw [if_neg Bool.false_ne_true]
      exact Or.inr (Or.inr ⟨_, rfl, rfl, rfl, rfl⟩)

theorem getOrCreateTeam_spec (env : Env) (n : String) (db : DB) :
    (getOrCreateTeam env n db = (db, none) ∧ teamBlocked env db n) ∨
    (∃ t, getOrCreateTeam env n db = (db, some t) ∧ teamByName db n = some t) ∨
    (∃ t, getOrCreateTeam env n db =
        ({ db with teams := db.teams ++ [t], nextTeamId := db.nextTeamId + 1 }, some t) ∧
      t.name = n ∧ t.api_id = env.pyHash n % 1000000 ∧ teamByName db n = none ∧
      db.teams.any (fun t0 => t0.api_id == env.pyHash n % 1000000) = false) := by
  unfold getOrCreateTeam
  cases hq : teamByName db n with
  | some t => exact Or.inr (Or.inl ⟨t, rfl, rfl⟩)
  | none =>
    dsimp only
    cases hc : db.teams.any (fun t => t.api_id == env.pyHash n % 1000000) with
    | true =>
      rw [if_pos rfl]
      exact Or.inl ⟨rfl, hq, hc⟩
    | false =>
      rw [if_neg Bool.false_ne_true]
      exact Or.inr (Or.inr ⟨_, rfl, rfl, rfl, rfl, rfl⟩)

theorem teamByName_append_new (db : DB) (t : TeamRow) (n : String) (nid : ℕ)
    (hn : t.name = n) (hnone : teamByName db n = none) :
    teamByName { db with teams := db.teams ++ [t], nextTeamId := nid } n = some t := by
  show (db.teams ++ [t]).find? (fun t0 => t0.name == n) = some t
  rw [find?_append_none _ _ _ hnone]
  have ht : (t.name == n) = true := by rw [hn]; exact beq_self_eq_true n
  simp only [List.find?_cons, ht, if_true]

theorem dbGrows_newLeague (env : Env) (db : DB) (l : LeagueRow) (key : String) (nid : ℕ)
    (hname : l.name = key) (_hapi : l.api_id = env.pyHash key % 1000000)
    (hcol : db.leagues.any (fun l0 => l0.api_id == env.pyHash key % 1000000) = false) :
    DBGrows env db { db with leagues := db.leagues ++ [l], nextLeagueId := nid } := by
  refine ⟨?_, fun n h => h, fun n t h => h, fun om hid aid h => h, fun x h => h⟩
  intro key0 hb
  obtain ⟨hb1, hb2⟩ := hb
  have hne : key ≠ key0 := by
    intro he
    rw [he] at hcol
    rw [hb2] at hcol
    exact Bool.noConfusion hcol
  constructor
  · show (db.leagues ++ [l]).find? (fun l0 => l0.name == key0) = none
    rw [find?_append_none _ _ _ hb1]
    have hf : (l.name == key0) = false := by
      rw [hname]; exact beq_eq_false_iff_ne.mpr hne
    simp only [List.find?_cons, hf, Bool.false_eq_true, if_false, List.find?_nil]
  · show (db.leagues ++ [l]).any (fun l0 => l0.api_id == env.pyHash key0 % 1000000) = true
    rw [List.any_append, hb2, Bool.true_or]

theorem dbGrows_newTeam (env : Env) (db : DB) (t : TeamRow) (n : String) (nid : ℕ)
    (hname : t.name = n) (_hapi : t.api_id = env.pyHash n % 1000000)
    (hcol : db.teams.any (fun t0 => t0.api_id == env.pyHash n % 1000000) = false) :
    DBGrows env db { db with teams := db.teams ++ [t], nextTeamId := nid } := by
  refine ⟨fun k h => h, ?_, ?_, fun om hid aid h => h, fun x h => h⟩
  · intro n0 hb
    obtain ⟨hb1, hb2⟩ := hb
    have hne : n ≠ n0 := by
      intro he
      rw [he] at hcol
      rw [hb2] at hcol
      exact Bool.noConfusion hcol
    constructor
    · show (db.teams ++ [t]).find? (fun t0 => t0.name == n0) = none
      rw [find?_append_none _ _ _ hb1]
      have hf : (t.name == n0) = false := by
        rw [hname]; exact beq_eq_false_iff_ne.mpr hne
      simp only [List.find?_cons, hf, Bool.false_eq_true, if_false, List.find?_nil]
    · show (db.teams ++ [t]).any (fun t0 => t0.api_id == env.pyHash n0 % 1000000) = true
      rw [List.any_append, hb2, Bool.true_or]
  · intro n0 t0 hh
    show (db.teams ++ [t]).find? (fun x => x.name == n0) = some t0
    exact find?_append_some _ _ _ _ hh

theorem getOrCreateLeague_grows (env : Env) (key : String) (db : DB) :
    DBGrows env db (getOrCreateLeague env key db).1 := by
  rcases getOrCreateLeague_spec env key db with ⟨he, _⟩ | ⟨l, he⟩ | ⟨l, he, h1, h2, h3⟩
  · rw [he]; exact dbGrows_refl env db
  · rw [he]; exact dbGrows_refl env db
  · rw [he]; exact dbGrows_newLeague env db l key _ h1 h2 h3

theorem getOrCreateTeam_grows (env : Env) (n : String) (db : DB) :
    DBGrows env db (getOrCreateTeam env n db).1 := by
  rcases getOrCreateTeam_spec env n db with ⟨he, _⟩ | ⟨t, he, _⟩ | ⟨t, he, h1, h2, _, h3⟩
  · rw [he]; exact dbGrows_refl env db
  · rw [he]; exact dbGrows_refl env db
  · rw [he]; exact dbGrows_newTeam env db t n _ h1 h2 h3

theorem leagueBlocked_run (env : Env) (key : String) (db : DB)
    (h : leagueBlocked env db key) : getOrCreateLeague env key db = (db, none) := by
  unfold getOrCreateLeague
  rw [h.1]
  dsimp only
  rw [if_pos h.2]

theorem teamBlocked_run (env : Env) (n : String) (db : DB)
    (h : teamBlocked env db n) : getOrCreateTeam env n db = (db, none) := by
  unfold getOrCreateTeam
  rw [h.1]
  dsimp only
  rw [if_pos h.2]

theorem teamFound_run (env : Env) (n : String) (db : DB) (t : TeamRow)
    (h : teamByName db n = some t) : getOrCreateTeam env n db = (db, some t) := by
  unfold getOrCreateTeam
  rw [h]

theorem getOrCreateTeam_name (env : Env) (n : String) (db db' : DB) (t : TeamRow)
    (h : getOrCreateTeam env n db = (db', some t)) : teamByName db' n = some t := by
  rcases getOrCreateTeam_spec env n db with ⟨he, _⟩ | ⟨t0, he, hf⟩ | ⟨t0, he, h1, _, h4, _⟩
  · rw [he] at h; simp at h
  · rw [he] at h
    simp only [Prod.mk.injEq, Option.some.injEq] at h
    obtain ⟨hdb, ht⟩ := h
    rw [← hdb, ← ht]
    exact hf
  · rw [he] at h
    simp only [Prod.mk.injEq, Option.some.injEq] at h
    obtain ⟨hdb, ht⟩ := h
    rw [← hdb, ← ht]
    exact teamByName_append_new db t0 n _ h1 h4

theorem refreshOdds_keyF (po : ParsedOdds) (mid : ℕ) (r : MatchRow) :
    keyF (refreshOdds po mid r) = keyF r := by
  unfold refreshOdds
  split <;> rfl

theorem refreshOdds_window (po : ParsedOdds) (mid : ℕ) (om : OddsData) (hid aid : ℕ)
    (r : MatchRow) : windowPred om hid aid (refreshOdds po mid r) = windowPred om hid aid r := by
  unfold refreshOdds
  split <;> rfl

theorem refreshOdds_api (po : ParsedOdds) (mid : ℕ) (r : MatchRow) :
    (refreshOdds po mid r).api_id = r.api_id := by
  unfold refreshOdds
  split <;> rfl

theorem refreshOdds_date (po : ParsedOdds) (mid : ℕ) (r : MatchRow) :
    (refreshOdds po mid r).match_date = r.match_date := by
  unfold refreshOdds
  split <;> rfl

theorem storeOddsUpdate_frame (om : OddsData) (m0 : MatchRow) (db3 : DB) :
    ((storeOddsUpdate om m0 db3).1).matches'.map keyF = db3.matches'.map keyF ∧
    ((storeOddsUpdate om m0 db3).1).teams = db3.teams ∧
    ((storeOddsUpdate om m0 db3).1).leagues = db3.leagues := by
  unfold storeOddsUpdate
  cases hp : parse_odds om with
  | none => exact ⟨rfl, rfl, rfl⟩
  | some po =>
    dsimp only
    refine ⟨?_, rfl, rfl⟩
    rw [List.map_map]
    exact listMapCongr _ _ _ (fun r _ => refreshOdds_keyF po m0.id r)

theorem storeOddsUpdate_grows (env : Env) (om : OddsData) (m0 : MatchRow) (db3 : DB) :
    DBGrows env db3 (storeOddsUpdate om m0 db3).1 := by
  unfold storeOddsUpdate
  cases hp : parse_odds om with
  | none => exact dbGrows_refl env db3
  | some po =>
    dsimp only
    refine ⟨fun k hh => hh, fun n hh => hh, fun n t hh => hh, ?_, ?_⟩
    · intro om0 hid aid hh
      show (db3.matches'.map (refreshOdds po m0.id)).any (windowPred om0 hid aid) = true
      rw [anyMapInv _ _ _ (fun r => refreshOdds_window po m0.id om0 hid aid r)]
      exact hh
    · intro x hh
      show (db3.matches'.map (refreshOdds po m0.id)).any (fun r => r.api_id == x) = true
      rw [anyMapInv _ _ _ (fun r => by rw [refreshOdds_api po m0.id r])]
      exact hh

theorem storeOddsUpdate_dates (om : OddsData) (m0 : MatchRow) (db3 : DB) :
    ∀ r ∈ ((storeOddsUpdate om m0 db3).1).matches',
      ∃ r0 ∈ db3.matches', r.match_date = r0.match_date := by
  unfold storeOddsUpdate
  cases hp : parse_odds om with
  | none => exact fun r hr => ⟨r, hr, rfl⟩
  | some po =>
    dsimp only
    intro r hr
    simp only [List.mem_map] at hr
    obtain ⟨r0, hr0, hmap⟩ := hr
    exact ⟨r0, hr0, by rw [← hmap, refreshOdds_date]⟩

theorem storeOddsCreate_false_spec (env : Env) (afd : List (String × ℕ)) (om : OddsData)
    (lg : LeagueRow) (h a : TeamRow) (db3 : DB) :
    (storeOddsCreate env afd false om lg h a db3 = (db3, false) ∧
       db3.matches'.any (fun r => r.api_id == oddsApiId env afd om) = true) ∨
    (storeOddsCreate env afd false om lg h a db3 =
       ({ db3 with matches' := db3.matches' ++ [storeOddsNewRow env afd om lg h a db3],
                   nextMatchId := db3.nextMatchId + 1 }, true) ∧
       db3.matches'.any (fun r => r.api_id == oddsApiId env afd om) = false) := by
  unfold storeOddsCreate
  dsimp only
  rw [show (storeOddsNewRow env afd om lg h a db3).api_id = oddsApiId env afd om from rfl]
  cases hc : db3.matches'.any (fun r => r.api_id == oddsApiId env afd om) with
  | true =>
    rw [if_pos rfl]
    refine Or.inl ⟨rfl, ?_⟩
    trivial
  | false =>
    rw [if_neg Bool.false_ne_true]
    simp only [Bool.false_and]
    rw [if_neg Bool.false_ne_true]
    refine Or.inr ⟨rfl, ?_⟩
    trivial

theorem storeOddsCreate_false_grows (env : Env) (afd : List (String × ℕ)) (om : OddsData)
    (lg : LeagueRow) (h a : TeamRow) (db3 : DB) :
    DBGrows env db3 (storeOddsCreate env afd false om lg h a db3).1 := by
  rcases storeOddsCreate_false_spec env afd om lg h a db3 with ⟨he, _⟩ | ⟨he, _⟩
  · rw [he]; exact dbGrows_refl env db3
  · rw [he]
    refine ⟨fun k hh => hh, fun n hh => hh, fun n t hh => hh, ?_, ?_⟩
    · intro om0 hid aid hh
      show (db3.matches' ++ [storeOddsNewRow env afd om lg h a db3]).any
        (windowPred om0 hid aid) = true
      rw [List.any_append, hh, Bool.true_or]
    · intro x hh
      show (db3.matches' ++ [storeOddsNewRow env afd om lg h a db3]).any
        (fun r => r.api_id == x) = true
      rw [List.any_append, hh, Bool.true_or]

theorem storeFixtureFromOdds_grows (env : Env) (afd : List (String × ℕ)) (om : OddsData)
    (db : DB) : DBGrows env db (storeFixtureFromOdds env afd false om db).1 := by
  unfold storeFixtureFromOdds
  dsimp only
  rcases hL : getOrCreateLeague env om.league_key db with ⟨db1, oL⟩
  have gL : DBGrows env db db1 := by
    have := getOrCreateLeague_grows env om.league_key db
    rw [hL] at this
    exact this
  cases oL with
  | none => exact gL
  | some league =>
    dsimp only
    rcases hH : getOrCreateTeam env (strTrim om.home_team) db1 with ⟨db2, oH⟩
    have gH : DBGrows env db1 db2 := by
      have := getOrCreateTeam_grows env (strTrim om.home_team) db1
      rw [hH] at this
      exact this
    cases oH with
    | none => exact dbGrows_trans gL gH
    | some ht =>
      dsimp only
      rcases hA : getOrCreateTeam env (strTrim om.away_team) db2 with ⟨db3, oA⟩
      have gA : DBGrows env db2 db3 := by
        have := getOrCreateTeam_grows env (strTrim om.away_team) db2
        rw [hA] at this
        exact this
      cases oA with
      | none => exact dbGrows_trans (dbGrows_trans gL gH) gA
      | some aw =>
        dsimp only
        cases hF : db3.matches'.find? (windowPred om ht.id aw.id) with
        | none =>
          exact dbGrows_trans (dbGrows_trans (dbGrows_trans gL gH) gA)
            (storeOddsCreate_false_grows env afd om league ht aw db3)
        | some m0 =>
          exact dbGrows_trans (dbGrows_trans (dbGrows_trans gL gH) gA)
            (storeOddsUpdate_grows env om m0 db3)

theorem storeFixtureFromOdds_settles (env : Env) (afd : List (String × ℕ)) (om : OddsData)
    (db : DB) : oddsSettled env afd om (storeFixtureFromOdds env afd false om db).1 := by
  unfold storeFixtureFromOdds
  dsimp only
  rcases hL : getOrCreateLeague env om.league_key db with ⟨db1, oL⟩
  cases oL with
  | none =>
    dsimp only
    rcases getOrCreateLeague_spec env om.league_key db with ⟨he, hb⟩ | ⟨l, he⟩ | ⟨l, he, _⟩
    · rw [hL] at he
      simp only [Prod.mk.injEq] at he
      exact Or.inl (he.1.symm ▸ hb)
    · rw [hL] at he; simp at he
    · rw [hL] at he; simp at he
  | some league =>
    dsimp only
    rcases hH : getOrCreateTeam env (strTrim om.home_team) db1 with ⟨db2, oH⟩
    cases oH with
    | none =>
      dsimp only
      rcases getOrCreateTeam_spec env (strTrim om.home_team) db1 with
        ⟨he, hb⟩ | ⟨t, he, _⟩ | ⟨t, he, _, _, _⟩
      · rw [hH] at he
        simp only [Prod.mk.injEq] at he
        exact Or.inr (Or.inl (he.1.symm ▸ hb))
      · rw [hH] at he; simp at he
      · rw [hH] at he; simp at he
    | some ht =>
      dsimp only
      rcases hA : getOrCreateTeam env (strTrim om.away_team) db2 with ⟨db3, oA⟩
      have hhn2 : teamByName db2 (strTrim om.home_team) = some ht :=
        getOrCreateTeam_name env (strTrim om.home_team) db1 db2 ht hH
      have gA : DBGrows env db2 db3 := by
        have := getOrCreateTeam_grows env (strTrim om.away_team) db2
        rw [hA] at this
        exact this
      cases oA with
      | none =>
        dsimp only
        rcases getOrCreateTeam_spec env (strTrim om.away_team) db2 with
          ⟨he, hb⟩ | ⟨t, he, _⟩ | ⟨t, he, _, _, _⟩
        · rw [hA] at he
          simp only [Prod.mk.injEq] at he
          exact Or.inr (Or.inr (Or.inl (he.1.symm ▸ hb)))
        · rw [hA] at he; simp at he
        · rw [hA] at he; simp at he
      | some aw =>
        dsimp only
        have hhn3 : teamByName db3 (strTrim om.home_team) = some ht :=
          gA.tname _ _ hhn2
        have han3 : teamByName db3 (strTrim om.away_team) = some aw :=
          getOrCreateTeam_name env (strTrim om.away_team) db2 db3 aw hA
        cases hF : db3.matches'.find? (windowPred om ht.id aw.id) with
        | some m0 =>
          dsimp only
          have hmem : m0 ∈ db3.matches' := List.mem_of_find?_eq_some hF
          have hp : windowPred om ht.id aw.id m0 = true := List.find?_some hF
          have hany : db3.matches'.any (windowPred om ht.id aw.id) = true :=
            List.any_eq_true.mpr ⟨m0, hmem, hp⟩
          have gU := storeOddsUpdate_grows env om m0 db3
          exact Or.inr (Or.inr (Or.inr ⟨ht, aw, gU.tname _ _ hhn3, gU.tname _ _ han3,
            Or.inl (gU.wany om ht.id aw.id hany)⟩))
        | none =>
          dsimp only
          rcases storeOddsCreate_false_spec env afd om league ht aw db3 with
            ⟨he, hc⟩ | ⟨he, hc⟩
          · rw [he]
            exact Or.inr (Or.inr (Or.inr ⟨ht, aw, hhn3, han3, Or.inr hc⟩))
          · rw [he]
            refine Or.inr (Or.inr (Or.inr ⟨ht, aw, hhn3, han3, Or.inr ?_⟩))
            show (db3.matches' ++ [storeOddsNewRow env afd om league ht aw db3]).any
              (fun r => r.api_id == oddsApiId env afd om) = true
            rw [List.any_append]
            have hone : ([storeOddsNewRow env afd om league ht aw db3].any
                (fun r => r.api_id == oddsApiId env afd om)) = true := by
              simp only [List.any_cons, List.any_nil, Bool.or_false]
              rw [show (storeOddsNewRow env afd om league ht aw db3).api_id =
                oddsApiId env afd om from rfl]
              exact beq_self_eq_true _
            rw [hone, Bool.or_true]

theorem storeFixtureFromOdds_keyF (env : Env) (afd : List (String × ℕ)) (om : OddsData)
    (db : DB) (hs : oddsSettled env afd om db) :
    ((storeFixtureFromOdds env afd false om db).1).matches'.map keyF =
      db.matches'.map keyF := by
  unfold storeFixtureFromOdds
  dsimp only
  rcases hL : getOrCreateLeague env om.league_key db with ⟨db1, oL⟩
  have hL1 : db1.matches' = db.matches' := by
    have := (getOrCreateLeague_frame env om.league_key db).1
    rw [hL] at this
    exact this
  have gL : DBGrows env db db1 := by
    have := getOrCreateLeague_grows env om.league_key db
    rw [hL] at this
    exact this
  cases oL with
  | none =>
    dsimp only
    rw [hL1]
  | some league =>
    dsimp only
    rcases hH : getOrCreateTeam env (strTrim om.home_team) db1 with ⟨db2, oH⟩
    have hH1 : db2.matches' = db1.matches' := by
      have := (getOrCreateTeam_frame env (strTrim om.home_team) db1).1
      rw [hH] at this
      exact this
    have gH : DBGrows env db1 db2 := by
      have := getOrCreateTeam_grows env (strTrim om.home_team) db1
      rw [hH] at this
      exact this
    cases oH with
    | none =>
      dsimp only
      rw [hH1, hL1]
    | some ht =>
      dsimp only
      rcases hA : getOrCreateTeam env (strTrim om.away_team) db2 with ⟨db3, oA⟩
      have hA1 : db3.matches' = db2.matches' := by
        have := (getOrCreateTeam_frame env (strTrim om.away_team) db2).1
        rw [hA] at this
        exact this
      cases oA with
      | none =>
        dsimp only
        rw [hA1, hH1, hL1]
      | some aw =>
        dsimp only
        rcases hs with hb | hb | hb | ⟨ht0, aw0, hh0, ha0, hw⟩
        · have := leagueBlocked_run env om.league_key db hb
          rw [this] at hL
          simp at hL
        · have hb1 := gL.tblock _ hb
          have := teamBlocked_run env (strTrim om.home_team) db1 hb1
          rw [this] at hH
          simp at hH
        · have hb2 := gH.tblock _ (gL.tblock _ hb)
          have := teamBlocked_run env (strTrim om.away_team) db2 hb2
          rw [this] at hA
          simp at hA
        · have hh1 := gL.tname _ _ hh0
          have := teamFound_run env (strTrim om.home_team) db1 ht0 hh1
          rw [this] at hH
          simp only [Prod.mk.injEq, Option.some.injEq] at hH
          obtain ⟨hdb2, hht⟩ := hH
          have ha2 : teamByName db2 (strTrim om.away_team) = some aw0 := by
            rw [← hdb2]
            exact gL.tname _ _ ha0
          have := teamFound_run env (strTrim om.away_team) db2 aw0 ha2
          rw [this] at hA
          simp only [Prod.mk.injEq, Option.some.injEq] at hA
          obtain ⟨hdb3, haw⟩ := hA
          have hm3 : db3.matches' = db.matches' := by
            rw [← hdb3, ← hdb2, hL1]
          cases hF : db3.matches'.find? (windowPred om ht.id aw.id) with
          | some m0 =>
            dsimp only
            rw [(storeOddsUpdate_frame om m0 db3).1, hm3]
          | none =>
            dsimp only
            rcases storeOddsCreate_false_spec env afd om league ht aw db3 with
              ⟨he, hc⟩ | ⟨he, hc⟩
            · rw [he]
              dsimp only
              rw [hm3]
            · rcases hw with hw | hw
              · have hcontra : db3.matches'.any (windowPred om ht.id aw.id) = true := by
                  rw [hm3, ← hht, ← haw]
                  exact hw
                rcases List.any_eq_true.mp hcontra with ⟨r, hrmem, hrp⟩
                have := List.find?_eq_none.mp hF r hrmem
                exact absurd hrp this
              · rw [hm3, hw] at hc
                exact Bool.noConfusion hc

theorem storeFixtureFromOdds_dates (env : Env) (afd : List (String × ℕ)) (om : OddsData)
    (db : DB) :
    ∀ r ∈ ((storeFixtureFromOdds env afd false om db).1).matches',
      (∃ r0 ∈ db.matches', r.match_date = r0.match_date) ∨
        r.match_date = om.commence_time := by
  unfold storeFixtureFromOdds
  dsimp only
  rcases hL : getOrCreateLeague env om.league_key db with ⟨db1, oL⟩
  have hL1 : db1.matches' = db.matches' := by
    have := (getOrCreateLeague_frame env om.league_key db).1
    rw [hL] at this
    exact this
  cases oL with
  | none =>
    dsimp only
    exact fun r hr => Or.inl ⟨r, hL1 ▸ hr, rfl⟩
  | some league =>
    dsimp only
    rcases hH : getOrCreateTeam env (strTrim om.home_team) db1 with ⟨db2, oH⟩
    have hH1 : db2.matches' = db.matches' := by
      have := (getOrCreateTeam_frame env (strTrim om.home_team) db1).1
      rw [hH] at this
      rw [this, hL1]
    cases oH with
    | none =>
      dsimp only
      exact fun r hr => Or.inl ⟨r, hH1 ▸ hr, rfl⟩
    | some ht =>
      dsimp only
      rcases hA : getOrCreateTeam env (strTrim om.away_team) db2 with ⟨db3, oA⟩
      have hA1 : db3.matches' = db.matches' := by
        have := (getOrCreateTeam_frame env (strTrim om.away_team) db2).1
        rw [hA] at this
        rw [this, hH1]
      cases oA with
      | none =>
        dsimp only
        exact fun r hr => Or.inl ⟨r, hA1 ▸ hr, rfl⟩
      | some aw =>
        dsimp only
        cases hF : db3.matches'.find? (windowPred om ht.id aw.id) with
        | some m0 =>
          dsimp only
          intro r hr
          obtain ⟨r0, hr0, he⟩ := storeOddsUpdate_dates om m0 db3 r hr
          exact Or.inl ⟨r0, hA1 ▸ hr0, he⟩
        | none =>
          dsimp only
          rcases storeOddsCreate_false_spec env afd om league ht aw db3 with
            ⟨he, _⟩ | ⟨he, _⟩
          · rw [he]
            exact fun r hr => Or.inl ⟨r, hA1 ▸ hr, rfl⟩
          · rw [he]
            intro r hr
            dsimp only at hr
            rcases List.mem_append.mp hr with hmem | hmem
            · exact Or.inl ⟨r, hA1 ▸ hmem, rfl⟩
            · have he2 := List.mem_singleton.mp hmem
              exact Or.inr (by rw [he2]; exact rfl)

theorem oddsFold_grows (env : Env) (afd : List (String × ℕ)) :
    ∀ (oms : List OddsData) (acc : DB × ℕ),
      DBGrows env acc.1 ((oms.foldl (oddsItemStep env afd) acc).1) := by
  intro oms
  induction oms with
  | nil => intro acc; exact dbGrows_refl env acc.1
  | cons om oms ih =>
    intro acc
    rw [List.foldl_cons]
    exact dbGrows_trans (storeFixtureFromOdds_grows env afd om acc.1)
      (ih (oddsItemStep env afd acc om))

theorem oddsFold_settles (env : Env) (afd : List (String × ℕ)) :
    ∀ (oms : List OddsData) (acc : DB × ℕ) (om : OddsData), om ∈ oms →
      oddsSettled env afd om ((oms.foldl (oddsItemStep env afd) acc).1) := by
  intro oms
  induction oms with
  | nil => intro acc om h; cases h
  | cons x xs ih =>
    intro acc om hmem
    rw [List.foldl_cons]
    rcases List.mem_cons.mp hmem with he | hxs
    · subst he
      exact oddsSettled_mono (storeFixtureFromOdds_settles env afd om acc.1)
        (oddsFold_grows env afd xs (oddsItemStep env afd acc om))
    · exact ih (oddsItemStep env afd acc x) om hxs

theorem oddsFold_keyF (env : Env) (afd : List (String × ℕ)) :
    ∀ (oms : List OddsData) (acc : DB × ℕ),
      (∀ om ∈ oms, oddsSettled env afd om acc.1) →
      ((oms.foldl (oddsItemStep env afd) acc).1).matches'.map keyF =
        acc.1.matches'.map keyF := by
  intro oms
  induction oms with
  | nil => intro acc _; rfl
  | cons x xs ih =>
    intro acc hall
    rw [List.foldl_cons]
    have hrest : ∀ om ∈ xs, oddsSettled env afd om ((oddsItemStep env afd acc x).1) :=
      fun om hm => oddsSettled_mono (hall om (List.mem_cons_of_mem x hm))
        (storeFixtureFromOdds_grows env afd x acc.1)
    rw [ih (oddsItemStep env afd acc x) hrest]
    exact storeFixtureFromOdds_keyF env afd x acc.1 (hall x (List.mem_cons_self x xs))

/-! Freshness: after one full run every stored Match is dated at or
after the start of the current day, so a second cleanup deletes
nothing. -/

def freshMatches (env : Env) (db : DB) : Prop :=
  ∀ r ∈ db.matches', dtLt r.match_date (todayStart env) = false

theorem todayStart_le_now (env : Env) : (todayStart env).toSec ≤ env.now.toSec := by
  unfold todayStart DT.toSec
  dsimp only
  have h1 : (0 : ℤ) ≤ (env.now.hour : ℤ) * 3600 + (env.now.minute : ℤ) * 60 +
      (env.now.second : ℤ) := by positivity
  omega

theorem fresh_of_window (env : Env) (ct : DT) (h : inWindow20h env ct = true) :
    dtLt ct (todayStart env) = false := by
  unfold inWindow20h at h
  rw [Bool.and_eq_true] at h
  have h1 : env.now.toSec ≤ ct.toSec := by
    have := h.1
    unfold dtLe at this
    exact of_decide_eq_true this
  unfold dtLt
  rw [decide_eq_false_iff_not]
  have h2 := todayStart_le_now env
  omega

theorem cleanup_fresh (env : Env) (db : DB) :
    freshMatches env (cleanupOldMatches env db).1 := by
  intro r hr
  have hr' : r ∈ db.matches'.filter (fun m => !dtLt m.match_date (todayStart env)) := hr
  have := (List.mem_filter.mp hr').2
  simpa using this

theorem cleanup_noop (env : Env) (db : DB) (h : freshMatches env db) :
    cleanupOldMatches env db = (db, 0) := by
  unfold cleanupOldMatches
  have h1 : db.matches'.filter (fun m => !dtLt m.match_date (todayStart env)) =
      db.matches' := by
    apply List.filter_eq_self.mpr
    intro r hr
    rw [h r hr]
    rfl
  have h2 : db.matches'.filter (fun m => dtLt m.match_date (todayStart env)) = [] := by
    apply List.filter_eq_nil_iff.mpr
    intro r hr
    rw [h r hr]
    exact Bool.false_ne_true
  rw [h1, h2]
  rfl

theorem oddsStep_fresh (env : Env) (afd : List (String × ℕ)) (om : OddsData) (db : DB)
    (hf : freshMatches env db) (hw : inWindow20h env om.commence_time = true) :
    freshMatches env (storeFixtureFromOdds env afd false om db).1 := by
  intro r hr
  rcases storeFixtureFromOdds_dates env afd om db r hr with ⟨r0, h0, he⟩ | he
  · rw [he]; exact hf r0 h0
  · rw [he]; exact fresh_of_window env _ hw

theorem oddsFold_fresh (env : Env) (afd : List (String × ℕ)) :
    ∀ (oms : List OddsData) (acc : DB × ℕ),
      (∀ om ∈ oms, inWindow20h env om.commence_time = true) →
      freshMatches env acc.1 →
      freshMatches env ((oms.foldl (oddsItemStep env afd) acc).1) := by
  intro oms
  induction oms with
  | nil => intro acc _ hf; exact hf
  | cons x xs ih =>
    intro acc hall hf
    rw [List.foldl_cons]
    exact ih (oddsItemStep env afd acc x)
      (fun om hm => hall om (List.mem_cons_of_mem x hm))
      (oddsStep_fresh env afd x acc.1 hf (hall x (List.mem_cons_self x xs)))

/-! The TEMPORARY-MODE path: one processing of a fixture leaves its
league, both teams and one of the two provider ids in the store, after
which a re-run of the same item is a no-op. -/

def tempSettled (p : ParsedFixture) (db : DB) : Prop :=
  ((db.leagues.find? (fun l => l.api_id == p.league.api_id)).isSome = true) ∧
  ((db.teams.find? (fun t => t.api_id == p.home_team.api_id)).isSome = true) ∧
  ((db.teams.find? (fun t => t.api_id == p.away_team.api_id)).isSome = true) ∧
  (db.matches'.any (fun r => r.api_id == p.api_id) = true ∨
   db.matches'.any (fun r => r.api_id == p.api_id + 1000000) = true)

structure TempGrows (db db' : DB) : Prop where
  lfind : ∀ x, ((db.leagues.find? (fun l => l.api_id == x)).isSome = true) →
    ((db'.leagues.find? (fun l => l.api_id == x)).isSome = true)
  tfind : ∀ x, ((db.teams.find? (fun t => t.api_id == x)).isSome = true) →
    ((db'.teams.find? (fun t => t.api_id == x)).isSome = true)
  many : ∀ x, db.matches'.any (fun r => r.api_id == x) = true →
    db'.matches'.any (fun r => r.api_id == x) = true

theorem tempGrows_refl (db : DB) : TempGrows db db :=
  ⟨fun _ h => h, fun _ h => h, fun _ h => h⟩

theorem tempGrows_trans {a b c : DB} (h1 : TempGrows a b) (h2 : TempGrows b c) :
    TempGrows a c :=
  ⟨fun x h => h2.lfind x (h1.lfind x h),
   fun x h => h2.tfind x (h1.tfind x h),
   fun x h => h2.many x (h1.many x h)⟩

theorem tempSettled_mono {p : ParsedFixture} {db db' : DB} (hs : tempSettled p db)
    (hg : TempGrows db db') : tempSettled p db' := by
  unfold tempSettled at hs ⊢
  obtain ⟨h1, h2, h3, h4⟩ := hs
  refine ⟨hg.lfind _ h1, hg.tfind _ h2, hg.tfind _ h3, ?_⟩
  rcases h4 with h4 | h4
  · exact Or.inl (hg.many _ h4)
  · exact Or.inr (hg.many _ h4)

theorem find?_isSome_append {α : Type} (p : α → Bool) (l₁ l₂ : List α)
    (h : (l₁.find? p).isSome = true) : ((l₁ ++ l₂).find? p).isSome = true := by
  cases hq : l₁.find? p with
  | none => rw [hq] at h; cases h
  | some a => rw [find?_append_some _ _ _ _ hq]; rfl

theorem tempGrows_appendMatches (db : DB) (rows : List MatchRow) (nid : ℕ) :
    TempGrows db { db with matches' := db.matches' ++ rows, nextMatchId := nid } :=
  ⟨fun x hh => hh, fun x hh => hh, fun x hh => by
    show (db.matches' ++ rows).any (fun r => r.api_id == x) = true
    rw [List.any_append, hh, Bool.true_or]⟩

theorem leagueByApiId_spec (env : Env) (lg : PFLeague) (db : DB) :
    (∃ l, db.leagues.find? (fun l0 => l0.api_id == lg.api_id) = some l ∧
       getOrCreateLeagueByApiId env lg db = (db, l)) ∨
    (∃ l, getOrCreateLeagueByApiId env lg db =
        ({ db with leagues := db.leagues ++ [l], nextLeagueId := db.nextLeagueId + 1 }, l) ∧
      l.api_id = lg.api_id) := by
  unfold getOrCreateLeagueByApiId
  cases hq : db.leagues.find? (fun l0 => l0.api_id == lg.api_id) with
  | some l => exact Or.inl ⟨l, rfl, rfl⟩
  | none =>
    dsimp only
    exact Or.inr ⟨_, rfl, rfl⟩

theorem teamByApiId_spec (tm : PFTeam) (db : DB) :
    (∃ t, db.teams.find? (fun t0 => t0.api_id == tm.api_id) = some t ∧
       getOrCreateTeamByApiId tm db = (db, t)) ∨
    (∃ t, getOrCreateTeamByApiId tm db =
        ({ db with teams := db.teams ++ [t], nextTeamId := db.nextTeamId + 1 }, t) ∧
      t.api_id = tm.api_id) := by
  unfold getOrCreateTeamByApiId
  cases hq : db.teams.find? (fun t0 => t0.api_id == tm.api_id) with
  | some t => exact Or.inl ⟨t, rfl, rfl⟩
  | none =>
    dsimp only
    exact Or.inr ⟨_, rfl, rfl⟩

theorem leagueByApiId_grows (env : Env) (lg : PFLeague) (db : DB) :
    TempGrows db (getOrCreateLeagueByApiId env lg db).1 := by
  rcases leagueByApiId_spec env lg db with ⟨l, _, he⟩ | ⟨l, he, _⟩
  · rw [he]; exact tempGrows_refl db
  · rw [he]
    exact ⟨fun x hh => find?_isSome_append _ _ _ hh, fun x hh => hh, fun x hh => hh⟩

theorem teamByApiId_grows (tm : PFTeam) (db : DB) :
    TempGrows db (getOrCreateTeamByApiId tm db).1 := by
  rcases teamByApiId_spec tm db with ⟨t, _, he⟩ | ⟨t, he, _⟩
  · rw [he]; exact tempGrows_refl db
  · rw [he]
    exact ⟨fun x hh => hh, fun x hh => find?_isSome_append _ _ _ hh, fun x hh => hh⟩

theorem leagueByApiId_sets (env : Env) (lg : PFLeague) (db : DB) :
    (((getOrCreateLeagueByApiId env lg db).1).leagues.find?
      (fun l0 => l0.api_id == lg.api_id)).isSome = true := by
  rcases leagueByApiId_spec env lg db with ⟨l, hq, he⟩ | ⟨l, he, hapi⟩
  · rw [he]
    show (db.leagues.find? (fun l0 => l0.api_id == lg.api_id)).isSome = true
    rw [hq]
    rfl
  · rw [he]
    show ((db.leagues ++ [l]).find? (fun l0 => l0.api_id == lg.api_id)).isSome = true
    cases hq : db.leagues.find? (fun l0 => l0.api_id == lg.api_id) with
    | some l0 => rw [find?_append_some _ _ _ _ hq]; rfl
    | none =>
      rw [find?_append_none _ _ _ hq]
      have hl : (l.api_id == lg.api_id) = true := by rw [hapi]; exact beq_self_eq_true _
      simp only [List.find?_cons, hl, if_true]
      rfl

theorem teamByApiId_sets (tm : PFTeam) (db : DB) :
    (((getOrCreateTeamByApiId tm db).1).teams.find?
      (fun t0 => t0.api_id == tm.api_id)).isSome = true := by
  rcases teamByApiId_spec tm db with ⟨t, hq, he⟩ | ⟨t, he, hapi⟩
  · rw [he]
    show (db.teams.find? (fun t0 => t0.api_id == tm.api_id)).isSome = true
    rw [hq]
    rfl
  · rw [he]
    show ((db.teams ++ [t]).find? (fun t0 => t0.api_id == tm.api_id)).isSome = true
    cases hq : db.teams.find? (fun t0 => t0.api_id == tm.api_id) with
    | some t0 => rw [find?_append_some _ _ _ _ hq]; rfl
    | none =>
      rw [find?_append_none _ _ _ hq]
      have ht : (t.api_id == tm.api_id) = true := by rw [hapi]; exact beq_self_eq_true _
      simp only [List.find?_cons, ht, if_true]
      rfl

theorem leagueByApiId_frame (env : Env) (lg : PFLeague) (db : DB) :
    ((getOrCreateLeagueByApiId env lg db).1).teams = db.teams ∧
    ((getOrCreateLeagueByApiId env lg db).1).matches' = db.matches' := by
  unfold getOrCreateLeagueByApiId
  cases hq : db.leagues.find? (fun l0 => l0.api_id == lg.api_id) with
  | some l => exact ⟨rfl, rfl⟩
  | none => exact ⟨rfl, rfl⟩

theorem teamByApiId_frame (tm : PFTeam) (db : DB) :
    ((getOrCreateTeamByApiId tm db).1).leagues = db.leagues ∧
    ((getOrCreateTeamByApiId tm db).1).matches' = db.matches' := by
  unfold getOrCreateTeamByApiId
  cases hq : db.teams.find? (fun t0 => t0.api_id == tm.api_id) with
  | some t => exact ⟨rfl, rfl⟩
  | none => exact ⟨rfl, rfl⟩

theorem storeFixtureFromApiFootball_grows (env : Env) (p : ParsedFixture) (db : DB) :
    TempGrows db (storeFixtureFromApiFootball env p db).1 := by
  unfold storeFixtureFromApiFootball
  dsimp only
  rcases h1 : getOrCreateLeagueByApiId env p.league db with ⟨dbA, lg⟩
  have g1 : TempGrows db dbA := by
    have := leagueByApiId_grows env p.league db
    rw [h1] at this
    exact this
  dsimp only
  rcases h2 : getOrCreateTeamByApiId p.home_team dbA with ⟨dbB, t1⟩
  have g2 : TempGrows dbA dbB := by
    have := teamByApiId_grows p.home_team dbA
    rw [h2] at this
    exact this
  dsimp only
  rcases h3 : getOrCreateTeamByApiId p.away_team dbB with ⟨dbC, t2⟩
  have g3 : TempGrows dbB dbC := by
    have := teamByApiId_grows p.away_team dbB
    rw [h3] at this
    exact this
  have gAll : TempGrows db dbC := tempGrows_trans (tempGrows_trans g1 g2) g3
  dsimp only
  cases hc1 : dbC.matches'.any (fun r => r.api_id == p.api_id) with
  | true =>
    rw [if_pos rfl]
    exact gAll
  | false =>
    rw [if_neg Bool.false_ne_true]
    cases hc2 : dbC.matches'.any (fun r => r.api_id == p.api_id + 1000000) with
    | true =>
      rw [if_pos rfl]
      exact gAll
    | false =>
      rw [if_neg Bool.false_ne_true]
      dsimp only
      exact tempGrows_trans gAll (tempGrows_appendMatches dbC _ _)

theorem storeFixtureFromApiFootball_settles (env : Env) (p : ParsedFixture) (db : DB) :
    tempSettled p (storeFixtureFromApiFootball env p db).1 := by
  unfold storeFixtureFromApiFootball
  dsimp only
  rcases h1 : getOrCreateLeagueByApiId env p.league db with ⟨dbA, lg⟩
  have s1 : ((dbA.leagues.find? (fun l0 => l0.api_id == p.league.api_id)).isSome = true) := by
    have := leagueByApiId_sets env p.league db
    rw [h1] at this
    exact this
  dsimp only
  rcases h2 : getOrCreateTeamByApiId p.home_team dbA with ⟨dbB, t1⟩
  have g2 : TempGrows dbA dbB := by
    have := teamByApiId_grows p.home_team dbA
    rw [h2] at this
    exact this
  have s2 : ((dbB.teams.find? (fun t0 => t0.api_id == p.home_team.api_id)).isSome = true) := by
    have := teamByApiId_sets p.home_team dbA
    rw [h2] at this
    exact this
  dsimp only
  rcases h3 : getOrCreateTeamByApiId p.away_team dbB with ⟨dbC, t2⟩
  have g3 : TempGrows dbB dbC := by
    have := teamByApiId_grows p.away_team dbB
    rw [h3] at this
    exact this
  have s3 : ((dbC.teams.find? (fun t0 => t0.api_id == p.away_team.api_id)).isSome = true) := by
    have := teamByApiId_sets p.away_team dbB
    rw [h3] at this
    exact this
  have s1C : ((dbC.leagues.find? (fun l0 => l0.api_id == p.league.api_id)).isSome = true) :=
    g3.lfind _ (g2.lfind _ s1)
  have s2C : ((dbC.teams.find? (fun t0 => t0.api_id == p.home_team.api_id)).isSome = true) :=
    g3.tfind _ s2
  dsimp only
  cases hc1 : dbC.matches'.any (fun r => r.api_id == p.api_id) with
  | true =>
    rw [if_pos rfl]
    exact ⟨s1C, s2C, s3, Or.inl hc1⟩
  | false =>
    rw [if_neg Bool.false_ne_true]
    cases hc2 : dbC.matches'.any (fun r => r.api_id == p.api_id + 1000000) with
    | true =>
      rw [if_pos rfl]
      exact ⟨s1C, s2C, s3, Or.inr hc2⟩
    | false =>
      rw [if_neg Bool.false_ne_true]
      dsimp only
      have gApp := tempGrows_appendMatches dbC
        [tempHomeRow p lg t1 t2 dbC,
         { tempHomeRow p lg t1 t2 dbC with
             id := dbC.nextMatchId + 1
             api_id := p.api_id + 1000000
             favorite_team_id := some t2.id }]
        (dbC.nextMatchId + 2)
      refine ⟨gApp.lfind _ s1C, gApp.tfind _ s2C, gApp.tfind _ s3, Or.inl ?_⟩
      refine List.any_eq_true.mpr ⟨tempHomeRow p lg t1 t2 dbC, ?_, ?_⟩
      · exact List.mem_append.mpr (Or.inr (List.mem_cons_self _ _))
      · exact beq_self_eq_true p.api_id

theorem storeFixtureFromApiFootball_id (env : Env) (p : ParsedFixture) (db : DB)
    (hs : tempSettled p db) : storeFixtureFromApiFootball env p db = (db, false) := by
  unfold tempSettled at hs
  obtain ⟨hl, hth, hta, hm⟩ := hs
  obtain ⟨l0, hl0⟩ := Option.isSome_iff_exists.mp hl
  obtain ⟨t1, ht1⟩ := Option.isSome_iff_exists.mp hth
  obtain ⟨t2, ht2⟩ := Option.isSome_iff_exists.mp hta
  have e1 : getOrCreateLeagueByApiId env p.league db = (db, l0) := by
    unfold getOrCreateLeagueByApiId
    rw [hl0]
  have e2 : getOrCreateTeamByApiId p.home_team db = (db, t1) := by
    unfold getOrCreateTeamByApiId
    rw [ht1]
  have e3 : getOrCreateTeamByApiId p.away_team db = (db, t2) := by
    unfold getOrCreateTeamByApiId
    rw [ht2]
  unfold storeFixtureFromApiFootball
  dsimp only
  rw [e1]
  dsimp only
  rw [e2]
  dsimp only
  rw [e3]
  dsimp only
  cases hc1 : db.matches'.any (fun r => r.api_id == p.api_id) with
  | true => rw [if_pos rfl]
  | false =>
    rw [if_neg Bool.false_ne_true]
    rcases hm with hm | hm
    · rw [hm] at hc1
      exact Bool.noConfusion hc1
    · rw [if_pos hm]

theorem storeFixtureFromApiFootball_dates (env : Env) (p : ParsedFixture) (db : DB) :
    ∀ r ∈ ((storeFixtureFromApiFootball env p db).1).matches',
      r ∈ db.matches' ∨ r.match_date = p.match_date := by
  unfold storeFixtureFromApiFootball
  dsimp only
  rcases h1 : getOrCreateLeagueByApiId env p.league db with ⟨dbA, lg⟩
  have f1 : dbA.matches' = db.matches' := by
    have := (leagueByApiId_frame env p.league db).2
    rw [h1] at this
    exact this
  dsimp only
  rcases h2 : getOrCreateTeamByApiId p.home_team dbA with ⟨dbB, t1⟩
  have f2 : dbB.matches' = db.matches' := by
    have := (teamByApiId_frame p.home_team dbA).2
    rw [h2] at this
    rw [this, f1]
  dsimp only
  rcases h3 : getOrCreateTeamByApiId p.away_team dbB with ⟨dbC, t2⟩
  have f3 : dbC.matches' = db.matches' := by
    have := (teamByApiId_frame p.away_team dbB).2
    rw [h3] at this
    rw [this, f2]
  dsimp only
  cases hc1 : dbC.matches'.any (fun r => r.api_id == p.api_id) with
  | true =>
    rw [if_pos rfl]
    exact fun r hr => Or.inl (f3 ▸ hr)
  | false =>
    rw [if_neg Bool.false_ne_true]
    cases hc2 : dbC.matches'.any (fun r => r.api_id == p.api_id + 1000000) with
    | true =>
      rw [if_pos rfl]
      exact fun r hr => Or.inl (f3 ▸ hr)
    | false =>
      rw [if_neg Bool.false_ne_true]
      dsimp only
      intro r hr
      rcases List.mem_append.mp hr with hmem | hmem
      · exact Or.inl (f3 ▸ hmem)
      · simp only [List.mem_cons, List.not_mem_nil, or_false] at hmem
        rcases hmem with he | he
        · exact Or.inr (by rw [he]; exact rfl)
        · exact Or.inr (by rw [he]; exact rfl)

theorem tempFold_grows (env : Env) :
    ∀ (ps : List ParsedFixture) (acc : DB × ℕ),
      TempGrows acc.1 ((ps.foldl (tempItemStep env) acc).1) := by
  intro ps
  induction ps with
  | nil => intro acc; exact tempGrows_refl acc.1
  | cons p ps ih =>
    intro acc
    rw [List.foldl_cons]
    exact tempGrows_trans (storeFixtureFromApiFootball_grows env p acc.1)
      (ih (tempItemStep env acc p))

theorem tempFold_settles (env : Env) :
    ∀ (ps : List ParsedFixture) (acc : DB × ℕ) (p : ParsedFixture), p ∈ ps →
      tempSettled p ((ps.foldl (tempItemStep env) acc).1) := by
  intro ps
  induction ps with
  | nil => intro acc p h; cases h
  | cons x xs ih =>
    intro acc p hmem
    rw [List.foldl_cons]
    rcases List.mem_cons.mp hmem with he | hxs
    · subst he
      exact tempSettled_mono (storeFixtureFromApiFootball_settles env p acc.1)
        (tempFold_grows env xs (tempItemStep env acc p))
    · exact ih (tempItemStep env acc x) p hxs

theorem tempFold_db (env : Env) :
    ∀ (ps : List ParsedFixture) (acc : DB × ℕ),
      (∀ p ∈ ps, tempSettled p acc.1) →
      ((ps.foldl (tempItemStep env) acc).1) = acc.1 := by
  intro ps
  induction ps with
  | nil => intro acc _; rfl
  | cons x xs ih =>
    intro acc hall
    rw [List.foldl_cons]
    have hid := storeFixtureFromApiFootball_id env x acc.1 (hall x (List.mem_cons_self x xs))
    have hstep : tempItemStep env acc x = (acc.1, acc.2) := by
      unfold tempItemStep
      rw [hid]
      rfl
    rw [hstep]
    exact ih (acc.1, acc.2) (fun q hq => hall q (List.mem_cons_of_mem x hq))

theorem tempStep_fresh (env : Env) (p : ParsedFixture) (db : DB)
    (hf : freshMatches env db) (hw : inWindow20h env p.match_date = true) :
    freshMatches env (storeFixtureFromApiFootball env p db).1 := by
  intro r hr
  rcases storeFixtureFromApiFootball_dates env p db r hr with hmem | he
  · exact hf r hmem
  · rw [he]; exact fresh_of_window env _ hw

theorem tempFold_fresh (env : Env) :
    ∀ (ps : List ParsedFixture) (acc : DB × ℕ),
      (∀ p ∈ ps, inWindow20h env p.match_date = true) →
      freshMatches env acc.1 →
      freshMatches env ((ps.foldl (tempItemStep env) acc).1) := by
  intro ps
  induction ps with
  | nil => intro acc _ hf; exact hf
  | cons x xs ih =>
    intro acc hall hf
    rw [List.foldl_cons]
    exact ih (tempItemStep env acc x)
      (fun p hp => hall p (List.mem_cons_of_mem x hp))
      (tempStep_fresh env x acc.1 hf (hall x (List.mem_cons_self x xs)))

theorem mainPass_fresh (env : Env) (db0 : DB) (h : freshMatches env db0) :
    freshMatches env ((fixturesMainPass env db0).1) := by
  unfold fixturesMainPass
  split
  · refine tempFold_fresh env (tempItems env) (db0, 0) ?_ h
    intro p hp
    have hmem := (List.mem_filter.mp hp).2
    simp only [Bool.and_eq_true] at hmem
    exact hmem.2
  · refine oddsFold_fresh env _ (todayOdds env) (db0, 0) ?_ h
    intro om hm
    exact (List.mem_filter.mp hm).2

theorem mainPass_establishes_odds (env : Env) (db0 : DB)
    (he : (todayOdds env).isEmpty = false) :
    ∀ om ∈ todayOdds env,
      oddsSettled env (buildAfDict (env.fixturesToday ++ env.fixturesTomorrow)) om
        ((fixturesMainPass env db0).1) := by
  intro om hm
  unfold fixturesMainPass
  split
  case isTrue hT => rw [he] at hT; exact Bool.noConfusion hT
  case isFalse hT => exact oddsFold_settles env _ (todayOdds env) (db0, 0) om hm

theorem mainPass_establishes_temp (env : Env) (db0 : DB)
    (he : (todayOdds env).isEmpty = true) :
    ∀ p ∈ tempItems env, tempSettled p ((fixturesMainPass env db0).1) := by
  intro p hp
  unfold fixturesMainPass
  split
  case isTrue hT => exact tempFold_settles env (tempItems env) (db0, 0) p hp
  case isFalse hT => exact absurd he hT

theorem mainPass_keyF_temp (env : Env) (db1 : DB)
    (he : (todayOdds env).isEmpty = true)
    (htemp : ∀ p ∈ tempItems env, tempSettled p db1) :
    ((fixturesMainPass env db1).1) = db1 := by
  unfold fixturesMainPass
  split
  case isTrue hT => exact tempFold_db env (tempItems env) (db1, 0) htemp
  case isFalse hT => exact absurd he hT

theorem mainPass_keyF_odds (env : Env) (db1 : DB)
    (he : (todayOdds env).isEmpty = false)
    (hodds : ∀ om ∈ todayOdds env,
      oddsSettled env (buildAfDict (env.fixturesToday ++ env.fixturesTomorrow)) om db1) :
    ((fixturesMainPass env db1).1).matches'.map keyF = db1.matches'.map keyF := by
  unfold fixturesMainPass
  split
  case isTrue hT => rw [he] at hT; exact Bool.noConfusion hT
  case isFalse hT => exact oddsFold_keyF env _ (todayOdds env) (db1, 0) hodds

/-- **C8 (amended).** `fetch_and_store_fixtures` is idempotent at the
level of Match rows: run twice against the same environment, the second
run leaves the list of Match rows unchanged in identity (primary key,
provider id, team pair and kickoff datetime; only odds columns may be
rewritten).  On the odds path every item is settled by the first run —
a window row for the pair, a store row already carrying the provider id
the creation would pick, or a permanently blocked get-or-create — on
the TEMPORARY-MODE path a re-run of each item is a no-op guarded by the
provider-id checks, and the second cleanup deletes nothing because
every stored row is dated at or after the start of today.  The
duplicate-suppression mechanism is **not** the claimed calendar-day
skip (see the counterexample). -/
theorem C8_store_idempotent (env : Env) (db : DB) :
    ((fetchAndStoreFixtures env (fetchAndStoreFixtures env db).1).1).matches'.map keyF =
      ((fetchAndStoreFixtures env db).1).matches'.map keyF := by
  have hfresh : freshMatches env (fetchAndStoreFixtures env db).1 :=
    mainPass_fresh env (cleanupOldMatches env db).1 (cleanup_fresh env db)
  have hclean := cleanup_noop env (fetchAndStoreFixtures env db).1 hfresh
  have hrw : (fetchAndStoreFixtures env (fetchAndStoreFixtures env db).1).1 =
      (fixturesMainPass env (fetchAndStoreFixtures env db).1).1 := by
    show (fixturesMainPass env (cleanupOldMatches env (fetchAndStoreFixtures env db).1).1).1 = _
    rw [hclean]
  rw [hrw]
  cases he : (todayOdds env).isEmpty with
  | true =>
    rw [mainPass_keyF_temp env (fetchAndStoreFixtures env db).1 he
      (mainPass_establishes_temp env (cleanupOldMatches env db).1 he)]
  | false =>
    exact mainPass_keyF_odds env (fetchAndStoreFixtures env db).1 he
      (mainPass_establishes_odds env (cleanupOldMatches env db).1 he)

def sameCalendarDay (a b : DT) : Bool :=
  a.year == b.year && a.month == b.month && a.day == b.day

/-- An existing Match for the test pair late on the same calendar day
(23:59:30) — outside the code's `[00:00:00, 23:59:00)` window. -/
def c8Existing : MatchRow :=
  { testMatch with match_date := ⟨2026, 10, 12, 23, 59, 30⟩ }

def c8DB : DB := { testDB with matches' := [c8Existing] }

/-- The same pairing offered by the odds feed, commencing 15:30 of that
calendar day. -/
def c8Om : OddsData :=
  { home_team := "Home FC", away_team := "Away FC", league_key := "soccer_epl",
    commence_time := dtX,
    bookmakers := [⟨"B", [⟨"h2h", [⟨"Home FC", mkRat 3 2⟩, ⟨"Away FC", mkRat 5 2⟩,
      ⟨"Draw", mkRat 3 1⟩]⟩]⟩] }

/-- **C8 (counterexample).** The claimed skip rule — "creation is
skipped whenever a Match already exists for the same home/away team
pair on the same calendar day" — is not what the code implements: a
Match for the same pair on the same calendar day exists (at 23:59:30),
yet `_store_fixture_from_odds` still creates a second row for the pair
and day, because its existence check uses the window
`[commence.replace(hour=0, minute=0), commence.replace(hour=23, minute=59))`
with the seconds field kept, which misses that row. -/
theorem C8_counterexample :
    (c8DB.matches'.any (fun r => r.home_team_id == 10 && r.away_team_id == 20 &&
        sameCalendarDay r.match_date c8Om.commence_time) = true) ∧
    ((storeFixtureFromOdds okEnv [] false c8Om c8DB).1.matches'.filter
        (fun r => r.home_team_id == 10 && r.away_team_id == 20 &&
          sameCalendarDay r.match_date c8Om.commence_time)).length = 2 := by
  constructor
  · decide
  · decide

end FootballAlerts
